import Mathlib

/-!
Verification development for the arcade GUI layout engine
(`src/arcade/gui/widgets/layout.py`): the three layout strategies
`UIAnchorLayout`, `UIBoxLayout`, `UIGridLayout` and the
`size_hint` / `size_hint_min` / `size_hint_max` negotiation protocol.

Numbers are embedded as rationals (`ℚ`).  Python `None` becomes
`Option.none`; the frequent Python idiom `x or y` (falling back on a
falsy value, with `0`/`0.0` falsy) is embedded explicitly.  Fallible
list indexing (Python `IndexError`) is embedded by returning `Option`.
-/

namespace Arcade

/-- Python truthiness for an optional number: `if x:` is true iff
`x` is neither `None` nor zero. -/
def otruthy (o : Option ℚ) : Prop := o.getD 0 ≠ 0

instance (o : Option ℚ) : Decidable (otruthy o) := by
  unfold otruthy; infer_instance

/-- Python `a or b` on two numbers: `b` when `a` is falsy (zero). -/
def orElseQ (a b : ℚ) : ℚ := if a = 0 then b else a

/-- Python `o or b` on an optional number: `b` when `o` is `None` or zero.
For `b = 0` this coincides with `Option.getD o 0`. -/
def orElseOQ (o : Option ℚ) (b : ℚ) : ℚ := if otruthy o then o.getD 0 else b

/-- Python `span or 1` on a natural number span. -/
def spanOr1 (n : ℕ) : ℚ := if n = 0 then 1 else (n : ℚ)

/-- Python float floor division `a // b`. -/
def fdiv (a b : ℚ) : ℚ := (⌊a / b⌋ : ℤ)

/-- Python `max` over a nonempty list (the empty case never arises in the
scenarios modelled here; it is given the junk value 0). -/
def listMax (l : List ℚ) : ℚ :=
  match l with
  | [] => 0
  | h :: t => t.foldl max h

/-- Modelled from the spec (§3 Rect): the geometric value type of
`arcade.gui.widgets`, which is not under `src/`.  Immutable axis-aligned
rectangle `{x, y, width, height}` with bottom-left origin, y-up. -/
structure Rect where
  x : ℚ
  y : ℚ
  width : ℚ
  height : ℚ
deriving DecidableEq, Repr

namespace Rect

def left (r : Rect) : ℚ := r.x
def right (r : Rect) : ℚ := r.x + r.width
def bottom (r : Rect) : ℚ := r.y
def top (r : Rect) : ℚ := r.y + r.height
def center_x (r : Rect) : ℚ := r.x + r.width / 2
def center_y (r : Rect) : ℚ := r.y + r.height / 2

/-- Modelled from the spec: `move(dx,dy)` translates the rect. -/
def move (r : Rect) (dx dy : ℚ) : Rect := { r with x := r.x + dx, y := r.y + dy }

/-- Modelled from the spec: `resize(width?,height?)` replaces the given
dimensions, keeping the bottom-left position. -/
def resize (r : Rect) (w h : Option ℚ) : Rect :=
  { r with width := w.getD r.width, height := h.getD r.height }

/-- Modelled from the spec: `min_size(w?,h?)` clamps the size up (lower
bound) on the dimensions that are given. -/
def min_size (r : Rect) (w h : Option ℚ) : Rect :=
  { r with
    width := match w with | none => r.width | some v => max r.width v
    height := match h with | none => r.height | some v => max r.height v }

/-- Modelled from the spec: `max_size(w?,h?)` clamps the size down (upper
bound) on the dimensions that are given. -/
def max_size (r : Rect) (w h : Option ℚ) : Rect :=
  { r with
    width := match w with | none => r.width | some v => min r.width v
    height := match h with | none => r.height | some v => min r.height v }

/-- Modelled from the spec: `align_left(v)` translates so `left = v`. -/
def align_left (r : Rect) (v : ℚ) : Rect := { r with x := v }

/-- Modelled from the spec: `align_right(v)` translates so `right = v`. -/
def align_right (r : Rect) (v : ℚ) : Rect := { r with x := v - r.width }

/-- Modelled from the spec: `align_bottom(v)` translates so `bottom = v`. -/
def align_bottom (r : Rect) (v : ℚ) : Rect := { r with y := v }

/-- Modelled from the spec: `align_top(v)` translates so `top = v`. -/
def align_top (r : Rect) (v : ℚ) : Rect := { r with y := v - r.height }

/-- Modelled from the spec: `align_center_x(v)` translates so `center_x = v`. -/
def align_center_x (r : Rect) (v : ℚ) : Rect := { r with x := v - r.width / 2 }

/-- Modelled from the spec: `align_center_y(v)` translates so `center_y = v`. -/
def align_center_y (r : Rect) (v : ℚ) : Rect := { r with y := v - r.height / 2 }

end Rect

/-- A size-hint pair: per-axis optional values, as stored on a widget.
The whole triple component may itself be `None` in Python
(`child.size_hint or (None, None)`), hence the outer `Option`. -/
abbrev HintPair := Option ℚ × Option ℚ

/-- Modelled from the spec (§3, §6): the widget capability set consumed by
containers — a mutable rect plus the size-hint triple.  `UIWidget` itself
lives in `arcade.gui.widgets`, which is not under `src/`. -/
structure UIWidget where
  rect : Rect
  size_hint : Option HintPair
  size_hint_min : Option HintPair
  size_hint_max : Option HintPair
deriving DecidableEq, Repr

namespace UIWidget

def width (w : UIWidget) : ℚ := w.rect.width
def height (w : UIWidget) : ℚ := w.rect.height

/-- `child.size_hint or (None, None)`. -/
def sh (w : UIWidget) : HintPair := w.size_hint.getD (none, none)

/-- `child.size_hint_min or (None, None)`. -/
def shmn (w : UIWidget) : HintPair := w.size_hint_min.getD (none, none)

/-- `child.size_hint_max or (None, None)`. -/
def shmx (w : UIWidget) : HintPair := w.size_hint_max.getD (none, none)

end UIWidget

/-- Modelled from the spec (§3 widget node / glossary): the container's own
geometry and insets.  `content rect` is the rect shrunk by border width and
padding on all sides. -/
structure LayoutFrame where
  x : ℚ
  y : ℚ
  width : ℚ
  height : ℚ
  padding_left : ℚ
  padding_right : ℚ
  padding_top : ℚ
  padding_bottom : ℚ
  border_width : ℚ
deriving DecidableEq, Repr

namespace LayoutFrame

def content_width (f : LayoutFrame) : ℚ :=
  f.width - f.padding_left - f.padding_right - 2 * f.border_width

def content_height (f : LayoutFrame) : ℚ :=
  f.height - f.padding_top - f.padding_bottom - 2 * f.border_width

def content_rect (f : LayoutFrame) : Rect :=
  { x := f.x + f.border_width + f.padding_left
    y := f.y + f.border_width + f.padding_bottom
    width := f.content_width
    height := f.content_height }

/-- `base_width` as computed in `_update_size_hints`:
`padding_left + padding_right + 2 * border_width`. -/
def base_width (f : LayoutFrame) : ℚ :=
  f.padding_left + f.padding_right + 2 * f.border_width

/-- `base_height` as computed in `_update_size_hints`:
`padding_top + padding_bottom + 2 * border_width`. -/
def base_height (f : LayoutFrame) : ℚ :=
  f.padding_top + f.padding_bottom + 2 * f.border_width

end LayoutFrame

/-! ## UIAnchorLayout -/

/-- Anchor on the x axis (`"left"`, `"center"`, `"right"`). -/
inductive AnchorX | left | center | right
deriving DecidableEq, Repr

/-- Anchor on the y axis (`"top"`, `"center"`, `"bottom"`). -/
inductive AnchorY | top | center | bottom
deriving DecidableEq, Repr

/-- Per-child metadata stored by `UIAnchorLayout.add`. -/
structure AnchorData where
  anchor_x : Option AnchorX
  align_x : ℚ
  anchor_y : Option AnchorY
  align_y : ℚ
deriving DecidableEq, Repr

/-- `getattr(rect, anchor_x)` after the `"center" -> "center_x"` rewrite. -/
def anchorValX (r : Rect) : AnchorX → ℚ
  | .left => r.left
  | .center => r.center_x
  | .right => r.right

/-- `getattr(rect, anchor_y)` after the `"center" -> "center_y"` rewrite. -/
def anchorValY (r : Rect) : AnchorY → ℚ
  | .top => r.top
  | .center => r.center_y
  | .bottom => r.bottom

structure UIAnchorLayout where
  frame : LayoutFrame
  children : List (UIWidget × AnchorData)
deriving DecidableEq, Repr

namespace UIAnchorLayout

/-- Lines 111-135 of `_place_child`: the size-negotiation stage.  Resize
each hinted axis to `content_size * hint`, clamp by `size_hint_min` /
`size_hint_max` under Python truthiness (`if shmn_w:`), then cap at the
content size (`max_size(*self.content_size)`). -/
def place_size (f : LayoutFrame) (w : UIWidget) : Rect :=
  let r0 := w.rect
  let r1 :=
    match w.sh.1 with
    | none => r0
    | some f_w =>
      let ra := r0.resize (some (f.content_width * f_w)) none
      let rb := if otruthy w.shmn.1 then ra.min_size (some (w.shmn.1.getD 0)) none else ra
      if otruthy w.shmx.1 then rb.max_size (some (w.shmx.1.getD 0)) none else rb
  let r2 :=
    match w.sh.2 with
    | none => r1
    | some f_h =>
      let ra := r1.resize none (some (f.content_height * f_h))
      let rb := if otruthy w.shmn.2 then ra.min_size none (some (w.shmn.2.getD 0)) else ra
      if otruthy w.shmx.2 then rb.max_size none (some (w.shmx.2.getD 0)) else rb
  r2.max_size (some f.content_width) (some f.content_height)

/-- `UIAnchorLayout._place_child`: size negotiation, then translation so the
resolved anchor of the child meets the anchor of the content rect plus the
alignment offset; the rect is written back only when something changed. -/
def place_child (f : LayoutFrame) (w : UIWidget) (d : AnchorData) : UIWidget :=
  let ax := d.anchor_x.getD AnchorX.center
  let ay := d.anchor_y.getD AnchorY.center
  let new_child_rect := place_size f w
  let content_rect := f.content_rect
  let diff_x := anchorValX content_rect ax + d.align_x - anchorValX new_child_rect ax
  let diff_y := anchorValY content_rect ay + d.align_y - anchorValY new_child_rect ay
  if diff_x ≠ 0 ∨ diff_y ≠ 0 ∨ w.rect ≠ new_child_rect then
    { w with rect := new_child_rect.move diff_x diff_y }
  else w

/-- `UIAnchorLayout.do_layout`: place every child independently. -/
def do_layout (s : UIAnchorLayout) : UIAnchorLayout :=
  { s with children := s.children.map (fun p => (place_child s.frame p.1 p.2, p.2)) }

end UIAnchorLayout

/-! ## UIBoxLayout -/

/-- The inner `min_size` helper of `_update_size_hints` (identical in
`UIBoxLayout` and `UIGridLayout`): the min contribution of a child is its
`size_hint_min` (or 0) on an axis whose hint is set, and its current size
otherwise. -/
def layout_min_size (w : UIWidget) : ℚ × ℚ :=
  (if w.sh.1.isSome then w.shmn.1.getD 0 else w.width,
   if w.sh.2.isSome then w.shmn.2.getD 0 else w.height)

/-- `sum(child.size_hint[1] or 0 for child in children if child.size_hint) or 1`:
the vertical weight normalizer of `UIBoxLayout.do_layout`. -/
def total_size_hint_h (children : List UIWidget) : ℚ :=
  let s := ((children.filter (fun c => c.size_hint.isSome)).map
    (fun c => c.sh.2.getD 0)).sum
  if s = 0 then 1 else s

/-- `sum(child.size_hint[0] or 0 for child in children if child.size_hint) or 1`:
the horizontal weight normalizer of `UIBoxLayout.do_layout`. -/
def total_size_hint_w (children : List UIWidget) : ℚ :=
  let s := ((children.filter (fun c => c.size_hint.isSome)).map
    (fun c => c.sh.1.getD 0)).sum
  if s = 0 then 1 else s

structure UIBoxLayout where
  frame : LayoutFrame
  vertical : Bool
  align : String
  space_between : ℚ
  size_hint_min : ℚ × ℚ
  children : List UIWidget
deriving DecidableEq, Repr

namespace UIBoxLayout

/-- `UIBoxLayout._update_size_hints`: recompute the container's own
`size_hint_min` from the children's min contributions (sum along the
stacking axis plus inter-child spacing, max across the other axis),
plus the padding/border base. -/
def update_size_hints (s : UIBoxLayout) : UIBoxLayout :=
  let required_space_between : ℚ := ((s.children.length - 1 : ℕ) : ℚ) * s.space_between
  let min_child_sizes := s.children.map layout_min_size
  let wh : ℚ × ℚ :=
    if s.children.length = 0 then (0, 0)
    else if s.vertical then
      (listMax (min_child_sizes.map Prod.fst),
       (min_child_sizes.map Prod.snd).sum + required_space_between)
    else
      ((min_child_sizes.map Prod.fst).sum + required_space_between,
       listMax (min_child_sizes.map Prod.snd))
  { s with size_hint_min :=
      (s.frame.base_width + wh.1, s.frame.base_height + wh.2) }

/-- Size-negotiation stage of the `vertical=True` loop body of
`UIBoxLayout.do_layout` (lines 291-325 up to the `# align` comment): grow
the hinted y-axis by the proportional surplus share capped by
`height * hint`, then negotiate the x-axis against the content width. -/
def v_child_size (s : UIBoxLayout) (available_height total : ℚ)
    (w : UIWidget) : Rect :=
  let available_width := s.frame.content_width
  let r0 := w.rect
  let r1 :=
    match w.sh.2 with
    | none => r0
    | some sh_h =>
      let min_height_value := w.shmn.2.getD 0
      let available_growth_height := min_height_value + available_height * (sh_h / total)
      let max_growth_height := s.frame.height * sh_h
      let ra := r0.resize none (some (min available_growth_height max_growth_height))
      let rb := match w.shmn.2 with | none => ra | some m => ra.min_size none (some m)
      match w.shmx.2 with | none => rb | some m => rb.max_size none (some m)
  match w.sh.1 with
  | none => r1
  | some sh_w =>
    let ra := r1.resize (some (max (available_width * sh_w) (w.shmn.1.getD 0))) none
    let rb := match w.shmn.1 with | none => ra | some m => ra.min_size (some m) none
    match w.shmx.1 with | none => rb | some m => rb.max_size (some m) none

/-- Alignment stage of the `vertical=True` loop body (lines 327-337):
align on the cross axis per the configured `align`, then flush the top
against the cursor. -/
def v_align (s : UIBoxLayout) (start_y : ℚ) (r : Rect) : Rect :=
  let start_x := s.frame.content_rect.left
  let r3 :=
    if s.align = "left" then r.align_left start_x
    else if s.align = "right" then r.align_right (start_x + s.frame.content_width)
    else r.align_center_x (start_x + fdiv s.frame.content_width 2)
  r3.align_top start_y

/-- Loop body of the `vertical=True` branch of `UIBoxLayout.do_layout`
for one child at cursor `start_y`. -/
def v_child (s : UIBoxLayout) (available_height total : ℚ) (start_y : ℚ)
    (w : UIWidget) : UIWidget :=
  { w with rect := v_align s start_y (v_child_size s available_height total w) }

/-- The `vertical=True` child loop: the cursor advances by the rewritten
child height plus `space_between`. -/
def v_go (s : UIBoxLayout) (available_height total : ℚ) :
    ℚ → List UIWidget → List UIWidget
  | _, [] => []
  | start_y, w :: ws =>
    let w' := v_child s available_height total start_y w
    w' :: v_go s available_height total (start_y - w'.height - s.space_between) ws

/-- Size-negotiation stage of the `vertical=False` loop body of
`UIBoxLayout.do_layout` (lines 364-403 up to the `# align` comment). -/
def h_child_size (s : UIBoxLayout) (available_width total : ℚ)
    (w : UIWidget) : Rect :=
  let available_height := s.frame.content_height
  let r0 := w.rect
  let r1 :=
    match w.sh.1 with
    | none => r0
    | some sh_w =>
      let min_width_value := w.shmn.1.getD 0
      let available_growth_width := min_width_value + available_width * (sh_w / total)
      let max_growth_width := s.frame.width * sh_w
      let ra := r0.resize (some (min available_growth_width max_growth_width)) none
      let rb := match w.shmn.1 with | none => ra | some m => ra.min_size (some m) none
      match w.shmx.1 with | none => rb | some m => rb.max_size (some m) none
  match w.sh.2 with
  | none => r1
  | some sh_h =>
    let ra := r1.resize none (some (max (available_height * sh_h) (w.shmn.2.getD 0)))
    let rb := match w.shmn.2 with | none => ra | some m => ra.min_size none (some m)
    match w.shmx.2 with | none => rb | some m => rb.max_size none (some m)

/-- Alignment stage of the `vertical=False` loop body (lines 405-414). -/
def h_align (s : UIBoxLayout) (start_x : ℚ) (r : Rect) : Rect :=
  let start_y := s.frame.content_rect.top
  let center_y := start_y - fdiv s.frame.content_height 2
  let r3 :=
    if s.align = "top" then r.align_top start_y
    else if s.align = "bottom" then r.align_bottom (start_y - s.frame.content_height)
    else r.align_center_y center_y
  r3.align_left start_x

/-- Loop body of the `vertical=False` branch of `UIBoxLayout.do_layout`
for one child at cursor `start_x`. -/
def h_child (s : UIBoxLayout) (available_width total : ℚ) (start_x : ℚ)
    (w : UIWidget) : UIWidget :=
  { w with rect := h_align s start_x (h_child_size s available_width total w) }

/-- The `vertical=False` child loop: the cursor advances by the rewritten
child width plus `space_between`. -/
def h_go (s : UIBoxLayout) (available_width total : ℚ) :
    ℚ → List UIWidget → List UIWidget
  | _, [] => []
  | start_x, w :: ws =>
    let w' := h_child s available_width total start_x w
    w' :: h_go s available_width total (start_x + w'.width + s.space_between) ws

/-- `UIBoxLayout.do_layout`. -/
def do_layout (s : UIBoxLayout) : UIBoxLayout :=
  if s.children = [] then s
  else if s.vertical = true then
    { s with children :=
        (v_go s (max 0 (s.frame.height - s.size_hint_min.2))
          (total_size_hint_h s.children) s.frame.content_rect.top s.children) }
  else
    { s with children :=
        (h_go s (max 0 (s.frame.width - s.size_hint_min.1))
          (total_size_hint_w s.children) s.frame.content_rect.left s.children) }

end UIBoxLayout

/-! ## UIGridLayout -/

/-- Bounds-checked list update: Python `l[i] = a`, `none` on `IndexError`. -/
def setAt {α : Type} (l : List α) (i : ℕ) (a : α) : Option (List α) :=
  if i < l.length then some (l.set i a) else none

/-- Python `ll[i][j] = a` on a nested list, `none` on `IndexError`. -/
def setAt2 {α : Type} (ll : List (List α)) (i j : ℕ) (a : α) : Option (List (List α)) := do
  let row ← ll.get? i
  let row' ← setAt row j a
  pure (ll.set i row')

/-- Python `ll[i][j]` on a nested list, `none` on `IndexError`. -/
def getAt2 {α : Type} (ll : List (List α)) (i j : ℕ) : Option α := do
  let row ← ll.get? i
  row.get? j

/-- Python slice assignment `l[a:b] = repl` for `a ≤ b` (clamps the slice
to the list and may change the length). -/
def sliceAssign {α : Type} (l : List α) (a b : ℕ) (repl : List α) : List α :=
  l.take a ++ repl ++ l.drop b

/-- Per-child metadata stored by `UIGridLayout.add`. -/
structure GridData where
  col_num : ℕ
  row_num : ℕ
  col_span : ℕ
  row_span : ℕ
deriving DecidableEq, Repr

structure UIGridLayout where
  frame : LayoutFrame
  align_horizontal : String
  align_vertical : String
  horizontal_spacing : ℚ
  vertical_spacing : ℚ
  column_count : ℕ
  row_count : ℕ
  size_hint_min : ℚ × ℚ
  children : List (UIWidget × GridData)
deriving DecidableEq, Repr

/-- The three tables both grid passes build: `child_sorted_row_wise`
(cells hold the index of the child in `_children`), `max_width_per_column`
(column-major) and `max_height_per_row` (row-major). -/
structure GridTables where
  sorted : List (List (Option ℕ))
  mw : List (List (ℚ × ℕ))
  mh : List (List (ℚ × ℕ))
deriving DecidableEq, Repr

/-- One child's writes into the grid tables: zero out the covered cells,
write `(measure, span)` at the anchor cell, and place the child index into
`child_sorted_row_wise` by slice assignment.  `none` models the
`IndexError` Python raises when an index or span leaves the tables. -/
def gridTablesStep (t : GridTables) (idx : ℕ) (wd : UIWidget × GridData)
    (measure : UIWidget → ℚ × ℚ) : Option GridTables := do
  let d := wd.2
  let (m_w, m_h) := measure wd.1
  let mw1 ← (List.range' d.col_num d.col_span).foldlM
    (fun acc i => setAt2 acc i d.row_num ((0 : ℚ), (0 : ℕ))) t.mw
  let mw2 ← setAt2 mw1 d.col_num d.row_num (m_w, d.col_span)
  let mh1 ← (List.range' d.row_num d.row_span).foldlM
    (fun acc i => setAt2 acc i d.col_num ((0 : ℚ), (0 : ℕ))) t.mh
  let mh2 ← setAt2 mh1 d.row_num d.col_num (m_h, d.row_span)
  let sorted' := t.sorted.mapIdx (fun r row =>
    if d.row_num ≤ r ∧ r < d.row_num + d.row_span then
      sliceAssign row d.col_num (d.col_num + d.col_span)
        (List.replicate d.col_span (some idx))
    else row)
  pure { sorted := sorted', mw := mw2, mh := mh2 }

/-- Build the grid tables from all children in insertion order. -/
def buildTables (cc rc : ℕ) (measure : UIWidget → ℚ × ℚ)
    (children : List (UIWidget × GridData)) : Option GridTables :=
  let init : GridTables :=
    { sorted := List.replicate rc (List.replicate cc none)
      mw := List.replicate cc (List.replicate rc ((0 : ℚ), (1 : ℕ)))
      mh := List.replicate rc (List.replicate cc ((0 : ℚ), (1 : ℕ))) }
  children.enum.foldlM (fun acc p => gridTablesStep acc p.1 p.2 measure) init

/-- `max(v / (span or 1) for v, span in line)`: the per-row / per-column
principal of `_update_size_hints` (no spacing, no bumping). -/
def principalMin (l : List (ℚ × ℕ)) : ℚ :=
  listMax (l.map (fun e => e.1 / spanOr1 e.2))

/-- The equalization pass of `do_layout` on one row (or column): returns
the principal ratio `max((v+spacing)/(span or 1))` and the line with every
cheaper cell bumped to `(principal * span, span)`. -/
def equalize (spacing : ℚ) (l : List (ℚ × ℕ)) : ℚ × List (ℚ × ℕ) :=
  let p := listMax (l.map (fun e => (e.1 + spacing) / spanOr1 e.2))
  (p, l.map (fun e =>
    if (e.1 + spacing) / spanOr1 e.2 < p then (p * (e.2 : ℚ), e.2) else e))

/-- The `ratio` helper of `UIGridLayout.do_layout`: normalize a list by its
sum, treating a zero sum as 1 to prevent division by zero. -/
def gridRatio (dimensions : List ℚ) : List ℚ :=
  let ratio_value := if dimensions.sum = 0 then 1 else dimensions.sum
  dimensions.map (fun d => d / ratio_value)

namespace UIGridLayout

/-- `UIGridLayout._update_size_hints`: build the min-extent tables, take
per-row / per-column principals, and cache base + content as the
container's `size_hint_min`.  `none` models the `IndexError` raised when a
child's placement leaves the configured grid. -/
def update_size_hints (s : UIGridLayout) : Option UIGridLayout := do
  let t ← buildTables s.column_count s.row_count layout_min_size s.children
  let principal_height_ratio_list := t.mh.map principalMin
  let principal_width_ratio_list := t.mw.map principalMin
  let content_height := principal_height_ratio_list.sum
    + (s.row_count : ℚ) * s.vertical_spacing
  let content_width := principal_width_ratio_list.sum
    + (s.column_count : ℚ) * s.horizontal_spacing
  pure { s with size_hint_min :=
    (s.frame.base_width + content_width, s.frame.base_height + content_height) }

/-- The per-column minimum-width tallies of `_update_size_hints`
(`principal_width_ratio_list`), exposed for inspection. -/
def min_width_tallies (s : UIGridLayout) : Option (List ℚ) := do
  let t ← buildTables s.column_count s.row_count layout_min_size s.children
  pure (t.mw.map principalMin)

/-- `UIGridLayout.add`: store the child with its placement metadata; the
property binding on `_children` immediately triggers
`_update_size_hints` (spec §6: `add` must trigger the min-size recompute). -/
def add (s : UIGridLayout) (w : UIWidget) (d : GridData) : Option UIGridLayout :=
  update_size_hints { s with children := s.children ++ [(w, d)] }

/-- Lines 699-713 of `UIGridLayout.do_layout`: the new size of a processed
cell's child given the cell's available width/height.  Note the Python
`or` fallbacks: `sh * available or child.size` and the truthy
`if shmx:` guard on the upper clamp. -/
def cell_new_size (w : UIWidget) (available_width available_height : ℚ) : ℚ × ℚ :=
  let sh_w := match w.size_hint with | some p => p.1.getD 0 | none => 0
  let sh_h := match w.size_hint with | some p => p.2.getD 0 | none => 0
  let nh0 := max (w.shmn.2.getD 0) (orElseQ (sh_h * available_height) w.height)
  let nh := if otruthy w.shmx.2 then min (w.shmx.2.getD 0) nh0 else nh0
  let nw0 := max (w.shmn.1.getD 0) (orElseQ (sh_w * available_width) w.width)
  let nw := if otruthy w.shmx.1 then min (w.shmx.1.getD 0) nw0 else nw0
  (nw, nh)

/-- One cell of the rendering loop: state is (children, start_x,
max_height_row).  Skipped cells (empty, or zero equalized extent on either
axis) leave the state untouched — including the `start_x` cursor. -/
def cell_step (s : UIGridLayout) (eqmw eqmh : List (List (ℚ × ℕ)))
    (ehr ewr : List ℚ) (tah taw : ℚ) (start_y : ℚ) (row_num : ℕ)
    (st : List (UIWidget × GridData) × ℚ × ℚ) (cell : ℕ × Option ℕ) :
    Option (List (UIWidget × GridData) × ℚ × ℚ) := do
  let (ws, start_x, max_height_row) := st
  let col_num := cell.1
  let chc ← getAt2 eqmh row_num col_num
  let constant_height := chc.1
  let height_expand_ratio ← ehr.get? col_num
  let available_height := constant_height + tah * height_expand_ratio
  let cwc ← getAt2 eqmw col_num row_num
  let constant_width := cwc.1
  let width_expand_ratio ← ewr.get? row_num
  let available_width := constant_width + taw * width_expand_ratio
  match cell.2 with
  | none => pure (ws, start_x, max_height_row)
  | some id =>
    if constant_width ≠ 0 ∧ constant_height ≠ 0 then do
      let wd ← ws.get? id
      let w := wd.1
      let (nw, nh) := cell_new_size w available_width available_height
      let new_rect := w.rect.resize (some nw) (some nh)
      let cell_height := constant_height + s.vertical_spacing
      let cell_width := constant_width + s.horizontal_spacing
      let center_y := start_y - cell_height / 2
      let center_x := start_x + cell_width / 2
      let start_x' := start_x + cell_width
      let r1 :=
        if s.align_vertical = "top" then new_rect.align_top start_y
        else if s.align_vertical = "bottom" then new_rect.align_bottom (start_y - cell_height)
        else new_rect.align_center_y center_y
      let r2 :=
        if s.align_horizontal = "left" then r1.align_left (start_x' - cell_width)
        else if s.align_horizontal = "right" then r1.align_right start_x'
        else r1.align_center_x center_x
      let ws' := ws.set id ({ w with rect := r2 }, wd.2)
      let row_span := spanOr1 chc.2
      let actual_row_height := cell_height / row_span
      let max_height_row' :=
        if actual_row_height > max_height_row then actual_row_height else max_height_row
      pure (ws', start_x', max_height_row')
    else pure (ws, start_x, max_height_row)

/-- One row of the rendering loop: reset `start_x` and `max_height_row`,
fold over the cells, then advance `start_y` by `max_height_row`. -/
def row_step (s : UIGridLayout) (eqmw eqmh : List (List (ℚ × ℕ)))
    (ehr ewr : List ℚ) (tah taw initial_left_x : ℚ)
    (st : List (UIWidget × GridData) × ℚ) (row : ℕ × List (Option ℕ)) :
    Option (List (UIWidget × GridData) × ℚ) := do
  let (ws, start_y) := st
  let (ws', _, max_height_row) ← row.2.enum.foldlM
    (cell_step s eqmw eqmh ehr ewr tah taw start_y row.1)
    (ws, initial_left_x, (0 : ℚ))
  pure (ws', start_y - max_height_row)

/-- `UIGridLayout.do_layout`: build the current-size tables, equalize row
heights and column widths, distribute the remaining slack by the ratio
vectors, and walk the cells row-wise.  `none` models an uncaught Python
`IndexError`. -/
def do_layout (s : UIGridLayout) : Option UIGridLayout :=
  if s.children = [] then some s
  else do
    let t ← buildTables s.column_count s.row_count
      (fun w => (w.width, w.height)) s.children
    let eqh := t.mh.map (equalize s.vertical_spacing)
    let principal_height_ratio_list := eqh.map Prod.fst
    let eqmh := eqh.map Prod.snd
    let eqw := t.mw.map (equalize s.horizontal_spacing)
    let principal_width_ratio_list := eqw.map Prod.fst
    let eqmw := eqw.map Prod.snd
    let content_height := principal_height_ratio_list.sum
      + (s.row_count : ℚ) * s.vertical_spacing
    let content_width := principal_width_ratio_list.sum
      + (s.column_count : ℚ) * s.horizontal_spacing
    let expandable_height_ratio := gridRatio principal_width_ratio_list
    let expandable_width_ratio := gridRatio principal_height_ratio_list
    let tah := s.frame.content_rect.top - content_height - s.frame.content_rect.bottom
    let taw := s.frame.content_rect.right - content_width - s.frame.content_rect.left
    let initial_left_x := s.frame.content_rect.left
    let (ws, _) ← t.sorted.enum.foldlM
      (row_step s eqmw eqmh expandable_height_ratio expandable_width_ratio
        tah taw initial_left_x)
      (s.children, s.frame.content_rect.top)
    pure { s with children := ws }

end UIGridLayout

/-! ## Spec-side clamp combinators

These name the clamp stage the spec describes: a lower clamp by
`size_hint_min` followed by an upper clamp by `size_hint_max`.
`clampBelow`/`clampAbove` apply whenever the bound is present
(the spec's "when set"); the `truthy` variants mirror the Python
truthiness guards (`if shmn_w:`) of `UIAnchorLayout` and `UIGridLayout`,
which skip a zero bound. -/

/-- Lower clamp when the bound is present. -/
def clampBelow (m : Option ℚ) (v : ℚ) : ℚ :=
  match m with | none => v | some a => max v a

/-- Upper clamp when the bound is present. -/
def clampAbove (m : Option ℚ) (v : ℚ) : ℚ :=
  match m with | none => v | some a => min v a

/-- Lower clamp under Python truthiness: skipped when the bound is `None`
or zero. -/
def truthyClampBelow (m : Option ℚ) (v : ℚ) : ℚ :=
  if otruthy m then max v (m.getD 0) else v

/-- Upper clamp under Python truthiness: skipped when the bound is `None`
or zero. -/
def truthyClampAbove (m : Option ℚ) (v : ℚ) : ℚ :=
  if otruthy m then min v (m.getD 0) else v

/-! ## Concrete instances used by the theorems -/

/-- A layout frame with zero padding and border at the origin. -/
def frm (w h : ℚ) : LayoutFrame :=
  { x := 0, y := 0, width := w, height := h, padding_left := 0, padding_right := 0,
    padding_top := 0, padding_bottom := 0, border_width := 0 }

/-- A widget with the given rect and hints. -/
def wid (x y w h : ℚ) (sh shmn shmx : Option HintPair) : UIWidget :=
  { rect := { x := x, y := y, width := w, height := h },
    size_hint := sh, size_hint_min := shmn, size_hint_max := shmx }

/-- Anchor layout, content 100×100, one child with `size_hint=(1,1)` and
`size_hint_min=(200,None)`: the min clamp pushes past the content width. -/
def anchC1 : UIAnchorLayout :=
  { frame := frm 100 100,
    children := [(wid 0 0 30 30 (some (some 1, some 1)) (some (some 200, none)) none,
                  ⟨none, 0, none, 0⟩)] }

/-- Vertical box of height 300, no spacing or insets, two children with
`size_hint=(None,1)` each, min sizes recomputed as `add` would. -/
def boxC2 : UIBoxLayout :=
  UIBoxLayout.update_size_hints
  { frame := frm 100 300, vertical := true, align := "center", space_between := 0,
    size_hint_min := (0, 0),
    children := [wid 0 0 50 20 (some (none, some 1)) none none,
                 wid 0 0 40 30 (some (none, some 1)) none none] }

/-- Grid 2×1 with a single child spanning both columns with
`size_hint_min` width 100. -/
def gridC3 : UIGridLayout :=
  { frame := frm 100 100, align_horizontal := "center", align_vertical := "center",
    horizontal_spacing := 0, vertical_spacing := 0, column_count := 2, row_count := 1,
    size_hint_min := (0, 0),
    children := [(wid 0 0 10 10 (some (some 0, some 0)) (some (some 100, some 10)) none,
                  ⟨0, 0, 2, 1⟩)] }

/-- Grid 1×2, content 100×200: child A (10×10, `size_hint=(1,1)`) in row 0
and a fixed 50×50 child in row 1.  After one layout pass A's height changes
the height-ratio vector, so a second pass assigns A a different width. -/
def gridC4 : UIGridLayout :=
  { frame := frm 100 200, align_horizontal := "center", align_vertical := "center",
    horizontal_spacing := 0, vertical_spacing := 0, column_count := 1, row_count := 2,
    size_hint_min := (0, 0),
    children := [(wid 0 0 10 10 (some (some 1, some 1)) none none, ⟨0, 0, 1, 1⟩),
                 (wid 0 0 50 50 none none none, ⟨0, 1, 1, 1⟩)] }

/-- Anchor layout with a hinted child, used to instantiate the
no-overflow theorem. -/
def anchC5 : UIAnchorLayout :=
  { frame := frm 100 100,
    children := [(wid 0 0 30 30 (some (some (1/2), some (1/2))) none none,
                  ⟨some AnchorX.left, 5, some AnchorY.top, -5⟩)] }

/-- The placed child of `anchC5`. -/
def pC5 : UIWidget × AnchorData :=
  (UIAnchorLayout.place_child anchC5.frame
    (wid 0 0 30 30 (some (some (1/2), some (1/2))) none none)
    ⟨some AnchorX.left, 5, some AnchorY.top, -5⟩,
   ⟨some AnchorX.left, 5, some AnchorY.top, -5⟩)

/-- Anchor layout of content 30×30 holding a 50×40 child with no
size_hint: the hard content cap still shrinks it. -/
def anchC6 : UIAnchorLayout :=
  { frame := frm 30 30,
    children := [(wid 0 0 50 40 none none none, ⟨none, 0, none, 0⟩)] }

/-- Grid 1×1 holding a 50×40 child with no size_hint but
`size_hint_min=(80,None)`: the grid grows the hint-None axis to 80. -/
def gridC6 : UIGridLayout :=
  { frame := frm 100 100, align_horizontal := "center", align_vertical := "center",
    horizontal_spacing := 0, vertical_spacing := 0, column_count := 1, row_count := 1,
    size_hint_min := (0, 0),
    children := [(wid 0 0 50 40 none (some (some 80, none)) none, ⟨0, 0, 1, 1⟩)] }

/-- Grid 2×1 holding one child of min width 100 in column 0. -/
def gridC7 : UIGridLayout :=
  { frame := frm 100 100, align_horizontal := "center", align_vertical := "center",
    horizontal_spacing := 0, vertical_spacing := 0, column_count := 2, row_count := 1,
    size_hint_min := (0, 0),
    children := [(wid 0 0 10 10 (some (some 0, some 0)) (some (some 100, some 10)) none,
                  ⟨0, 0, 1, 1⟩)] }

/-- A later child spanning both columns with min width 10: adding it
zeroes the column-0 entry of the child already in `gridC7`. -/
def widC7 : UIWidget := wid 0 0 10 10 (some (some 0, some 0)) (some (some 10, some 10)) none

/-- Empty 1×1 grid used for the invalid-placement scenarios. -/
def gridC9 : UIGridLayout :=
  { frame := frm 100 100, align_horizontal := "center", align_vertical := "center",
    horizontal_spacing := 0, vertical_spacing := 0, column_count := 1, row_count := 1,
    size_hint_min := (0, 0), children := [] }

/-- A plain 10×10 widget with no hints. -/
def widPlain : UIWidget := wid 0 0 10 10 none none none

/-- The state `gridC9.add widPlain ⟨0,0,1,1⟩` succeeds with: the child
appended and `size_hint_min` recomputed to (10, 10). -/
def gridC9add : UIGridLayout :=
  { gridC9 with children := [(widPlain, ⟨0, 0, 1, 1⟩)], size_hint_min := (10, 10) }

/-- Grid 1×2: a width-0 child in row 0 and a 50-wide child in row 1.
Equalization bumps the zero column extent to 50, so the width-0 child is
processed and moved. -/
def gridC10 : UIGridLayout :=
  { frame := frm 100 100, align_horizontal := "center", align_vertical := "center",
    horizontal_spacing := 0, vertical_spacing := 0, column_count := 1, row_count := 2,
    size_hint_min := (0, 0),
    children := [(wid 0 0 0 10 none none none, ⟨0, 0, 1, 1⟩),
                 (wid 0 0 50 10 none none none, ⟨0, 1, 1, 1⟩)] }

/-- Grid 2×2: child 0 anchored at (col 1, row 0) spanning two rows; child 1
added later spans columns 0-1 of row 0 and overwrites child 0's anchor-cell
entry with `(0, 0)`, so child 0 is skipped entirely. -/
def gridC10b : UIGridLayout :=
  { frame := frm 100 100, align_horizontal := "center", align_vertical := "center",
    horizontal_spacing := 0, vertical_spacing := 0, column_count := 2, row_count := 2,
    size_hint_min := (0, 0),
    children := [(wid 3 4 20 20 none none none, ⟨1, 0, 1, 2⟩),
                 (wid 0 0 30 30 none none none, ⟨0, 0, 2, 1⟩)] }

/-- A box layout used to instantiate universal box theorems. -/
def boxW : UIBoxLayout :=
  { frame := frm 100 300, vertical := true, align := "center", space_between := 2,
    size_hint_min := (0, 50),
    children := [wid 0 0 50 20 (some (none, some 1)) none none,
                 wid 1 2 40 30 none none none] }

/-! ## Field lemmas for the Rect operations -/

attribute [ext] Rect

namespace Rect

@[simp] theorem resize_width (r : Rect) (w h : Option ℚ) :
    (r.resize w h).width = w.getD r.width := rfl

@[simp] theorem resize_height (r : Rect) (w h : Option ℚ) :
    (r.resize w h).height = h.getD r.height := rfl

@[simp] theorem resize_x (r : Rect) (w h : Option ℚ) : (r.resize w h).x = r.x := rfl

@[simp] theorem resize_y (r : Rect) (w h : Option ℚ) : (r.resize w h).y = r.y := rfl

@[simp] theorem min_size_x (r : Rect) (w h : Option ℚ) : (r.min_size w h).x = r.x := rfl

@[simp] theorem min_size_y (r : Rect) (w h : Option ℚ) : (r.min_size w h).y = r.y := rfl

@[simp] theorem min_size_none_width (r : Rect) (h : Option ℚ) :
    (r.min_size none h).width = r.width := rfl

@[simp] theorem min_size_some_width (r : Rect) (v : ℚ) (h : Option ℚ) :
    (r.min_size (some v) h).width = max r.width v := rfl

@[simp] theorem min_size_none_height (r : Rect) (w : Option ℚ) :
    (r.min_size w none).height = r.height := rfl

@[simp] theorem min_size_some_height (r : Rect) (w : Option ℚ) (v : ℚ) :
    (r.min_size w (some v)).height = max r.height v := rfl

@[simp] theorem max_size_x (r : Rect) (w h : Option ℚ) : (r.max_size w h).x = r.x := rfl

@[simp] theorem max_size_y (r : Rect) (w h : Option ℚ) : (r.max_size w h).y = r.y := rfl

@[simp] theorem max_size_none_width (r : Rect) (h : Option ℚ) :
    (r.max_size none h).width = r.width := rfl

@[simp] theorem max_size_some_width (r : Rect) (v : ℚ) (h : Option ℚ) :
    (r.max_size (some v) h).width = min r.width v := rfl

@[simp] theorem max_size_none_height (r : Rect) (w : Option ℚ) :
    (r.max_size w none).height = r.height := rfl

@[simp] theorem max_size_some_height (r : Rect) (w : Option ℚ) (v : ℚ) :
    (r.max_size w (some v)).height = min r.height v := rfl

@[simp] theorem move_x (r : Rect) (dx dy : ℚ) : (r.move dx dy).x = r.x + dx := rfl

@[simp] theorem move_y (r : Rect) (dx dy : ℚ) : (r.move dx dy).y = r.y + dy := rfl

@[simp] theorem move_width (r : Rect) (dx dy : ℚ) : (r.move dx dy).width = r.width := rfl

@[simp] theorem move_height (r : Rect) (dx dy : ℚ) : (r.move dx dy).height = r.height := rfl

@[simp] theorem move_zero (r : Rect) : r.move 0 0 = r := by
  ext <;> simp [move]

@[simp] theorem align_left_x (r : Rect) (v : ℚ) : (r.align_left v).x = v := rfl

@[simp] theorem align_right_x (r : Rect) (v : ℚ) : (r.align_right v).x = v - r.width := rfl

@[simp] theorem align_bottom_y (r : Rect) (v : ℚ) : (r.align_bottom v).y = v := rfl

@[simp] theorem align_top_y (r : Rect) (v : ℚ) : (r.align_top v).y = v - r.height := rfl

@[simp] theorem align_center_x_x (r : Rect) (v : ℚ) :
    (r.align_center_x v).x = v - r.width / 2 := rfl

@[simp] theorem align_center_y_y (r : Rect) (v : ℚ) :
    (r.align_center_y v).y = v - r.height / 2 := rfl

@[simp] theorem align_left_width (r : Rect) (v : ℚ) : (r.align_left v).width = r.width := rfl

@[simp] theorem align_right_width (r : Rect) (v : ℚ) : (r.align_right v).width = r.width := rfl

@[simp] theorem align_center_x_width (r : Rect) (v : ℚ) :
    (r.align_center_x v).width = r.width := rfl

@[simp] theorem align_top_width (r : Rect) (v : ℚ) : (r.align_top v).width = r.width := rfl

@[simp] theorem align_bottom_width (r : Rect) (v : ℚ) : (r.align_bottom v).width = r.width := rfl

@[simp] theorem align_left_height (r : Rect) (v : ℚ) : (r.align_left v).height = r.height := rfl

@[simp] theorem align_right_height (r : Rect) (v : ℚ) : (r.align_right v).height = r.height := rfl

@[simp] theorem align_center_x_height (r : Rect) (v : ℚ) :
    (r.align_center_x v).height = r.height := rfl

@[simp] theorem align_center_y_height (r : Rect) (v : ℚ) :
    (r.align_center_y v).height = r.height := rfl

@[simp] theorem align_center_y_width (r : Rect) (v : ℚ) :
    (r.align_center_y v).width = r.width := rfl

@[simp] theorem align_top_height (r : Rect) (v : ℚ) : (r.align_top v).height = r.height := rfl

@[simp] theorem align_bottom_height (r : Rect) (v : ℚ) :
    (r.align_bottom v).height = r.height := rfl

@[simp] theorem align_left_y (r : Rect) (v : ℚ) : (r.align_left v).y = r.y := rfl

@[simp] theorem align_right_y (r : Rect) (v : ℚ) : (r.align_right v).y = r.y := rfl

@[simp] theorem align_center_x_y (r : Rect) (v : ℚ) : (r.align_center_x v).y = r.y := rfl

@[simp] theorem align_top_x (r : Rect) (v : ℚ) : (r.align_top v).x = r.x := rfl

@[simp] theorem align_bottom_x (r : Rect) (v : ℚ) : (r.align_bottom v).x = r.x := rfl

@[simp] theorem align_center_y_x (r : Rect) (v : ℚ) : (r.align_center_y v).x = r.x := rfl

end Rect

/-! ## Field lemmas for widget updates -/

namespace UIWidget

@[simp] theorem set_rect_sh (w : UIWidget) (r : Rect) :
    ({ w with rect := r } : UIWidget).sh = w.sh := rfl

@[simp] theorem set_rect_shmn (w : UIWidget) (r : Rect) :
    ({ w with rect := r } : UIWidget).shmn = w.shmn := rfl

@[simp] theorem set_rect_shmx (w : UIWidget) (r : Rect) :
    ({ w with rect := r } : UIWidget).shmx = w.shmx := rfl

@[simp] theorem set_rect_size_hint (w : UIWidget) (r : Rect) :
    ({ w with rect := r } : UIWidget).size_hint = w.size_hint := rfl

@[simp] theorem set_rect_rect (w : UIWidget) (r : Rect) :
    ({ w with rect := r } : UIWidget).rect = r := rfl

@[simp] theorem width_def (w : UIWidget) : w.width = w.rect.width := rfl

@[simp] theorem height_def (w : UIWidget) : w.height = w.rect.height := rfl

end UIWidget

/-! ## AnchorLayout lemmas -/

namespace UIAnchorLayout

theorem place_size_x (f : LayoutFrame) (w : UIWidget) :
    (place_size f w).x = w.rect.x := by
  unfold place_size
  rcases h1 : w.sh.1 with _ | fw <;> rcases h2 : w.sh.2 with _ | fh <;>
    simp [h1, h2] <;> split_ifs <;> simp

theorem place_size_y (f : LayoutFrame) (w : UIWidget) :
    (place_size f w).y = w.rect.y := by
  unfold place_size
  rcases h1 : w.sh.1 with _ | fw <;> rcases h2 : w.sh.2 with _ | fh <;>
    simp [h1, h2] <;> split_ifs <;> simp

theorem place_size_width_none (f : LayoutFrame) (w : UIWidget) (h : w.sh.1 = none) :
    (place_size f w).width = min w.rect.width f.content_width := by
  unfold place_size
  rcases h2 : w.sh.2 with _ | fh <;> simp [h, h2] <;> split_ifs <;> simp

theorem place_size_width_some (f : LayoutFrame) (w : UIWidget) (fw : ℚ)
    (h : w.sh.1 = some fw) :
    (place_size f w).width =
      min (truthyClampAbove w.shmx.1 (truthyClampBelow w.shmn.1 (f.content_width * fw)))
        f.content_width := by
  unfold place_size truthyClampAbove truthyClampBelow
  rcases h2 : w.sh.2 with _ | fh <;> simp [h, h2] <;> split_ifs <;> simp

theorem place_size_height_none (f : LayoutFrame) (w : UIWidget) (h : w.sh.2 = none) :
    (place_size f w).height = min w.rect.height f.content_height := by
  unfold place_size
  rcases h1 : w.sh.1 with _ | fw <;> simp [h, h1] <;> split_ifs <;> simp

theorem place_size_height_some (f : LayoutFrame) (w : UIWidget) (fh : ℚ)
    (h : w.sh.2 = some fh) :
    (place_size f w).height =
      min (truthyClampAbove w.shmx.2 (truthyClampBelow w.shmn.2 (f.content_height * fh)))
        f.content_height := by
  unfold place_size truthyClampAbove truthyClampBelow
  rcases h1 : w.sh.1 with _ | fw <;> simp [h, h1] <;> split_ifs <;> simp

theorem place_size_width_le (f : LayoutFrame) (w : UIWidget) :
    (place_size f w).width ≤ f.content_width := by
  rcases h : w.sh.1 with _ | fw
  · rw [place_size_width_none f w h]; exact min_le_right _ _
  · rw [place_size_width_some f w fw h]; exact min_le_right _ _

theorem place_size_height_le (f : LayoutFrame) (w : UIWidget) :
    (place_size f w).height ≤ f.content_height := by
  rcases h : w.sh.2 with _ | fh
  · rw [place_size_height_none f w h]; exact min_le_right _ _
  · rw [place_size_height_some f w fh h]; exact min_le_right _ _

theorem place_size_congr (f : LayoutFrame) (w₁ w₂ : UIWidget)
    (hr : w₁.rect = w₂.rect) (h1 : w₁.size_hint = w₂.size_hint)
    (h2 : w₁.size_hint_min = w₂.size_hint_min)
    (h3 : w₁.size_hint_max = w₂.size_hint_max) :
    place_size f w₁ = place_size f w₂ := by
  unfold place_size
  rw [show w₁.sh = w₂.sh from by rw [UIWidget.sh, UIWidget.sh, h1],
    show w₁.shmn = w₂.shmn from by rw [UIWidget.shmn, UIWidget.shmn, h2],
    show w₁.shmx = w₂.shmx from by rw [UIWidget.shmx, UIWidget.shmx, h3], hr]

/-- Re-running the size negotiation on the already-negotiated (and moved)
rect reproduces it: sizes on hinted axes are recomputed identically, sizes
on unhinted axes are already capped, and positions pass through. -/
theorem place_size_stable (f : LayoutFrame) (w : UIWidget) (dx dy : ℚ) :
    place_size f { w with rect := (place_size f w).move dx dy } =
      (place_size f w).move dx dy := by
  ext
  · simp [place_size_x]
  · simp [place_size_y]
  · rw [Rect.move_width]
    rcases h : w.sh.1 with _ | fw
    · rw [place_size_width_none f _ (by simpa using h), UIWidget.set_rect_rect,
        Rect.move_width, place_size_width_none f w h, min_assoc, min_self]
    · rw [place_size_width_some f _ fw (by simpa using h),
        place_size_width_some f w fw h]
      rfl
  · rw [Rect.move_height]
    rcases h : w.sh.2 with _ | fh
    · rw [place_size_height_none f _ (by simpa using h), UIWidget.set_rect_rect,
        Rect.move_height, place_size_height_none f w h, min_assoc, min_self]
    · rw [place_size_height_some f _ fh (by simpa using h),
        place_size_height_some f w fh h]
      rfl

theorem anchorValX_move (r : Rect) (dx dy : ℚ) (a : AnchorX) :
    anchorValX (r.move dx dy) a = anchorValX r a + dx := by
  cases a <;> simp [anchorValX, Rect.left, Rect.right, Rect.center_x] <;> ring

theorem anchorValY_move (r : Rect) (dx dy : ℚ) (a : AnchorY) :
    anchorValY (r.move dx dy) a = anchorValY r a + dy := by
  cases a <;> simp [anchorValY, Rect.top, Rect.bottom, Rect.center_y] <;> ring

/-- The rect `_place_child` leaves on the child, in both branches of its
final "only write when changed" test. -/
theorem place_child_rect (f : LayoutFrame) (w : UIWidget) (d : AnchorData) :
    (place_child f w d).rect =
      (place_size f w).move
        (anchorValX f.content_rect (d.anchor_x.getD AnchorX.center) + d.align_x
          - anchorValX (place_size f w) (d.anchor_x.getD AnchorX.center))
        (anchorValY f.content_rect (d.anchor_y.getD AnchorY.center) + d.align_y
          - anchorValY (place_size f w) (d.anchor_y.getD AnchorY.center)) := by
  unfold place_child
  dsimp only
  split_ifs with h
  · rfl
  · push_neg at h
    obtain ⟨h1, h2, h3⟩ := h
    rw [h1, h2, Rect.move_zero, h3]

@[simp] theorem place_child_size_hint (f : LayoutFrame) (w : UIWidget) (d : AnchorData) :
    (place_child f w d).size_hint = w.size_hint := by
  unfold place_child; dsimp only; split_ifs <;> rfl

@[simp] theorem place_child_size_hint_min (f : LayoutFrame) (w : UIWidget) (d : AnchorData) :
    (place_child f w d).size_hint_min = w.size_hint_min := by
  unfold place_child; dsimp only; split_ifs <;> rfl

@[simp] theorem place_child_size_hint_max (f : LayoutFrame) (w : UIWidget) (d : AnchorData) :
    (place_child f w d).size_hint_max = w.size_hint_max := by
  unfold place_child; dsimp only; split_ifs <;> rfl

/-- `_place_child` is idempotent: placing an already placed child keeps
its rect. -/
theorem place_child_idem (f : LayoutFrame) (w : UIWidget) (d : AnchorData) :
    place_child f (place_child f w d) d = place_child f w d := by
  have hsz : place_size f (place_child f w d) =
      (place_child f w d).rect := by
    rw [place_child_rect f w d]
    have := place_size_stable f w
      (anchorValX f.content_rect (d.anchor_x.getD AnchorX.center) + d.align_x
        - anchorValX (place_size f w) (d.anchor_x.getD AnchorX.center))
      (anchorValY f.content_rect (d.anchor_y.getD AnchorY.center) + d.align_y
        - anchorValY (place_size f w) (d.anchor_y.getD AnchorY.center))
    rw [← this]
    apply place_size_congr <;> simp [place_child_rect]
  conv_lhs => rw [place_child]
  rw [if_neg]
  push_neg
  refine ⟨?_, ?_, ?_⟩
  · rw [hsz, place_child_rect, anchorValX_move]; ring
  · rw [hsz, place_child_rect, anchorValY_move]; ring
  · rw [hsz]

/-- `UIAnchorLayout.do_layout` is idempotent. -/
theorem anchor_do_layout_idem (s : UIAnchorLayout) :
    s.do_layout.do_layout = s.do_layout := by
  unfold do_layout
  simp only [List.map_map]
  congr 1
  apply List.map_congr_left
  intro p _
  simp [Function.comp, place_child_idem]

end UIAnchorLayout

/-! ## BoxLayout lemmas -/

attribute [ext] UIWidget

namespace UIBoxLayout

@[simp] theorem v_child_size_hint (s : UIBoxLayout) (ah t sy : ℚ) (w : UIWidget) :
    (v_child s ah t sy w).size_hint = w.size_hint := rfl

@[simp] theorem v_child_size_hint_min (s : UIBoxLayout) (ah t sy : ℚ) (w : UIWidget) :
    (v_child s ah t sy w).size_hint_min = w.size_hint_min := rfl

@[simp] theorem v_child_size_hint_max (s : UIBoxLayout) (ah t sy : ℚ) (w : UIWidget) :
    (v_child s ah t sy w).size_hint_max = w.size_hint_max := rfl

@[simp] theorem h_child_size_hint (s : UIBoxLayout) (aw t sx : ℚ) (w : UIWidget) :
    (h_child s aw t sx w).size_hint = w.size_hint := rfl

@[simp] theorem h_child_size_hint_min (s : UIBoxLayout) (aw t sx : ℚ) (w : UIWidget) :
    (h_child s aw t sx w).size_hint_min = w.size_hint_min := rfl

@[simp] theorem h_child_size_hint_max (s : UIBoxLayout) (aw t sx : ℚ) (w : UIWidget) :
    (h_child s aw t sx w).size_hint_max = w.size_hint_max := rfl

@[simp] theorem v_align_width (s : UIBoxLayout) (sy : ℚ) (r : Rect) :
    (v_align s sy r).width = r.width := by
  unfold v_align; split_ifs <;> simp

@[simp] theorem v_align_height (s : UIBoxLayout) (sy : ℚ) (r : Rect) :
    (v_align s sy r).height = r.height := by
  unfold v_align; split_ifs <;> simp

theorem v_align_idem (s : UIBoxLayout) (sy : ℚ) (r : Rect) :
    v_align s sy (v_align s sy r) = v_align s sy r := by
  unfold v_align; split_ifs <;> ext <;> simp

@[simp] theorem h_align_width (s : UIBoxLayout) (sx : ℚ) (r : Rect) :
    (h_align s sx r).width = r.width := by
  unfold h_align; split_ifs <;> simp

@[simp] theorem h_align_height (s : UIBoxLayout) (sx : ℚ) (r : Rect) :
    (h_align s sx r).height = r.height := by
  unfold h_align; split_ifs <;> simp

theorem h_align_idem (s : UIBoxLayout) (sx : ℚ) (r : Rect) :
    h_align s sx (h_align s sx r) = h_align s sx r := by
  unfold h_align; split_ifs <;> ext <;> simp

set_option maxHeartbeats 1000000 in
theorem v_child_size_x (s : UIBoxLayout) (ah t : ℚ) (w : UIWidget) :
    (v_child_size s ah t w).x = w.rect.x := by
  unfold v_child_size
  rcases h1 : w.sh.1 with _ | fw <;> rcases h2 : w.sh.2 with _ | fh <;>
  rcases hn1 : w.shmn.1 with _ | a1 <;> rcases hx1 : w.shmx.1 with _ | b1 <;>
  rcases hn2 : w.shmn.2 with _ | a2 <;> rcases hx2 : w.shmx.2 with _ | b2 <;>
    simp [h1, h2, hn1, hx1, hn2, hx2]

set_option maxHeartbeats 1000000 in
theorem v_child_size_y (s : UIBoxLayout) (ah t : ℚ) (w : UIWidget) :
    (v_child_size s ah t w).y = w.rect.y := by
  unfold v_child_size
  rcases h1 : w.sh.1 with _ | fw <;> rcases h2 : w.sh.2 with _ | fh <;>
  rcases hn1 : w.shmn.1 with _ | a1 <;> rcases hx1 : w.shmx.1 with _ | b1 <;>
  rcases hn2 : w.shmn.2 with _ | a2 <;> rcases hx2 : w.shmx.2 with _ | b2 <;>
    simp [h1, h2, hn1, hx1, hn2, hx2]

theorem v_child_size_width_none (s : UIBoxLayout) (ah t : ℚ) (w : UIWidget)
    (h : w.sh.1 = none) :
    (v_child_size s ah t w).width = w.rect.width := by
  unfold v_child_size
  rcases h2 : w.sh.2 with _ | fh <;>
  rcases hn2 : w.shmn.2 with _ | a2 <;> rcases hx2 : w.shmx.2 with _ | b2 <;>
    simp [h, h2, hn2, hx2]

set_option maxHeartbeats 1000000 in
theorem v_child_size_width_some (s : UIBoxLayout) (ah t : ℚ) (w : UIWidget) (fw : ℚ)
    (h : w.sh.1 = some fw) :
    (v_child_size s ah t w).width =
      clampAbove w.shmx.1 (clampBelow w.shmn.1
        (max (s.frame.content_width * fw) (w.shmn.1.getD 0))) := by
  unfold v_child_size clampAbove clampBelow
  rcases h2 : w.sh.2 with _ | fh <;>
  rcases hn2 : w.shmn.2 with _ | a2 <;> rcases hx2 : w.shmx.2 with _ | b2 <;>
  rcases hn1 : w.shmn.1 with _ | a1 <;> rcases hx1 : w.shmx.1 with _ | b1 <;>
    simp [h, h2, hn2, hx2, hn1, hx1]

theorem v_child_size_height_none (s : UIBoxLayout) (ah t : ℚ) (w : UIWidget)
    (h : w.sh.2 = none) :
    (v_child_size s ah t w).height = w.rect.height := by
  unfold v_child_size
  rcases h1 : w.sh.1 with _ | fw <;>
  rcases hn1 : w.shmn.1 with _ | a1 <;> rcases hx1 : w.shmx.1 with _ | b1 <;>
    simp [h, h1, hn1, hx1]

set_option maxHeartbeats 1000000 in
theorem v_child_size_height_some (s : UIBoxLayout) (ah t : ℚ) (w : UIWidget) (fh : ℚ)
    (h : w.sh.2 = some fh) :
    (v_child_size s ah t w).height =
      clampAbove w.shmx.2 (clampBelow w.shmn.2
        (min (w.shmn.2.getD 0 + ah * (fh / t)) (s.frame.height * fh))) := by
  unfold v_child_size clampAbove clampBelow
  rcases h1 : w.sh.1 with _ | fw <;>
  rcases hn1 : w.shmn.1 with _ | a1 <;> rcases hx1 : w.shmx.1 with _ | b1 <;>
  rcases hn2 : w.shmn.2 with _ | a2 <;> rcases hx2 : w.shmx.2 with _ | b2 <;>
    simp [h, h1, hn1, hx1, hn2, hx2]

@[simp] theorem v_child_width (s : UIBoxLayout) (ah t sy : ℚ) (w : UIWidget) :
    (v_child s ah t sy w).width = (v_child_size s ah t w).width := by
  unfold v_child; simp

@[simp] theorem v_child_height (s : UIBoxLayout) (ah t sy : ℚ) (w : UIWidget) :
    (v_child s ah t sy w).height = (v_child_size s ah t w).height := by
  unfold v_child; simp

/-- Re-running the vertical size negotiation on an already laid out child
reproduces its rect. -/
theorem v_child_size_stable (s : UIBoxLayout) (ah t sy : ℚ) (w : UIWidget) :
    v_child_size s ah t (v_child s ah t sy w) = (v_child s ah t sy w).rect := by
  ext
  · exact v_child_size_x s ah t _
  · exact v_child_size_y s ah t _
  · rcases h1 : w.sh.1 with _ | fw
    · rw [v_child_size_width_none s ah t _ (by simpa using h1)]
    · rw [v_child_size_width_some s ah t _ fw (by simpa using h1)]
      rw [show (v_child s ah t sy w).rect.width = (v_child s ah t sy w).width from rfl,
        v_child_width, v_child_size_width_some s ah t w fw h1]
      rfl
  · rcases h2 : w.sh.2 with _ | fh
    · rw [v_child_size_height_none s ah t _ (by simpa using h2)]
    · rw [v_child_size_height_some s ah t _ fh (by simpa using h2)]
      rw [show (v_child s ah t sy w).rect.height = (v_child s ah t sy w).height from rfl,
        v_child_height, v_child_size_height_some s ah t w fh h2]
      rfl

theorem v_child_idem (s : UIBoxLayout) (ah t sy : ℚ) (w : UIWidget) :
    v_child s ah t sy (v_child s ah t sy w) = v_child s ah t sy w := by
  conv_lhs => rw [v_child, v_child_size_stable]
  rw [show (v_child s ah t sy w).rect = v_align s sy (v_child_size s ah t w) from rfl,
    v_align_idem]
  rfl

set_option maxHeartbeats 1000000 in
theorem h_child_size_x (s : UIBoxLayout) (aw t : ℚ) (w : UIWidget) :
    (h_child_size s aw t w).x = w.rect.x := by
  unfold h_child_size
  rcases h1 : w.sh.1 with _ | fw <;> rcases h2 : w.sh.2 with _ | fh <;>
  rcases hn1 : w.shmn.1 with _ | a1 <;> rcases hx1 : w.shmx.1 with _ | b1 <;>
  rcases hn2 : w.shmn.2 with _ | a2 <;> rcases hx2 : w.shmx.2 with _ | b2 <;>
    simp [h1, h2, hn1, hx1, hn2, hx2]

set_option maxHeartbeats 1000000 in
theorem h_child_size_y (s : UIBoxLayout) (aw t : ℚ) (w : UIWidget) :
    (h_child_size s aw t w).y = w.rect.y := by
  unfold h_child_size
  rcases h1 : w.sh.1 with _ | fw <;> rcases h2 : w.sh.2 with _ | fh <;>
  rcases hn1 : w.shmn.1 with _ | a1 <;> rcases hx1 : w.shmx.1 with _ | b1 <;>
  rcases hn2 : w.shmn.2 with _ | a2 <;> rcases hx2 : w.shmx.2 with _ | b2 <;>
    simp [h1, h2, hn1, hx1, hn2, hx2]

theorem h_child_size_width_none (s : UIBoxLayout) (aw t : ℚ) (w : UIWidget)
    (h : w.sh.1 = none) :
    (h_child_size s aw t w).width = w.rect.width := by
  unfold h_child_size
  rcases h2 : w.sh.2 with _ | fh <;>
  rcases hn2 : w.shmn.2 with _ | a2 <;> rcases hx2 : w.shmx.2 with _ | b2 <;>
    simp [h, h2, hn2, hx2]

set_option maxHeartbeats 1000000 in
theorem h_child_size_width_some (s : UIBoxLayout) (aw t : ℚ) (w : UIWidget) (fw : ℚ)
    (h : w.sh.1 = some fw) :
    (h_child_size s aw t w).width =
      clampAbove w.shmx.1 (clampBelow w.shmn.1
        (min (w.shmn.1.getD 0 + aw * (fw / t)) (s.frame.width * fw))) := by
  unfold h_child_size clampAbove clampBelow
  rcases h2 : w.sh.2 with _ | fh <;>
  rcases hn2 : w.shmn.2 with _ | a2 <;> rcases hx2 : w.shmx.2 with _ | b2 <;>
  rcases hn1 : w.shmn.1 with _ | a1 <;> rcases hx1 : w.shmx.1 with _ | b1 <;>
    simp [h, h2, hn2, hx2, hn1, hx1]

theorem h_child_size_height_none (s : UIBoxLayout) (aw t : ℚ) (w : UIWidget)
    (h : w.sh.2 = none) :
    (h_child_size s aw t w).height = w.rect.height := by
  unfold h_child_size
  rcases h1 : w.sh.1 with _ | fw <;>
  rcases hn1 : w.shmn.1 with _ | a1 <;> rcases hx1 : w.shmx.1 with _ | b1 <;>
    simp [h, h1, hn1, hx1]

set_option maxHeartbeats 1000000 in
theorem h_child_size_height_some (s : UIBoxLayout) (aw t : ℚ) (w : UIWidget) (fh : ℚ)
    (h : w.sh.2 = some fh) :
    (h_child_size s aw t w).height =
      clampAbove w.shmx.2 (clampBelow w.shmn.2
        (max (s.frame.content_height * fh) (w.shmn.2.getD 0))) := by
  unfold h_child_size clampAbove clampBelow
  rcases h1 : w.sh.1 with _ | fw <;>
  rcases hn1 : w.shmn.1 with _ | a1 <;> rcases hx1 : w.shmx.1 with _ | b1 <;>
  rcases hn2 : w.shmn.2 with _ | a2 <;> rcases hx2 : w.shmx.2 with _ | b2 <;>
    simp [h, h1, hn1, hx1, hn2, hx2]

@[simp] theorem h_child_width (s : UIBoxLayout) (aw t sx : ℚ) (w : UIWidget) :
    (h_child s aw t sx w).width = (h_child_size s aw t w).width := by
  unfold h_child; simp

@[simp] theorem h_child_height (s : UIBoxLayout) (aw t sx : ℚ) (w : UIWidget) :
    (h_child s aw t sx w).height = (h_child_size s aw t w).height := by
  unfold h_child; simp

theorem h_child_size_stable (s : UIBoxLayout) (aw t sx : ℚ) (w : UIWidget) :
    h_child_size s aw t (h_child s aw t sx w) = (h_child s aw t sx w).rect := by
  ext
  · exact h_child_size_x s aw t _
  · exact h_child_size_y s aw t _
  · rcases h1 : w.sh.1 with _ | fw
    · rw [h_child_size_width_none s aw t _ (by simpa using h1)]
    · rw [h_child_size_width_some s aw t _ fw (by simpa using h1)]
      rw [show (h_child s aw t sx w).rect.width = (h_child s aw t sx w).width from rfl,
        h_child_width, h_child_size_width_some s aw t w fw h1]
      rfl
  · rcases h2 : w.sh.2 with _ | fh
    · rw [h_child_size_height_none s aw t _ (by simpa using h2)]
    · rw [h_child_size_height_some s aw t _ fh (by simpa using h2)]
      rw [show (h_child s aw t sx w).rect.height = (h_child s aw t sx w).height from rfl,
        h_child_height, h_child_size_height_some s aw t w fh h2]
      rfl

theorem h_child_idem (s : UIBoxLayout) (aw t sx : ℚ) (w : UIWidget) :
    h_child s aw t sx (h_child s aw t sx w) = h_child s aw t sx w := by
  conv_lhs => rw [h_child, h_child_size_stable]
  rw [show (h_child s aw t sx w).rect = h_align s sx (h_child_size s aw t w) from rfl,
    h_align_idem]
  rfl

@[simp] theorem box_set_children_frame (s : UIBoxLayout) (c : List UIWidget) :
    ({ s with children := c } : UIBoxLayout).frame = s.frame := rfl

@[simp] theorem set_children_vertical (s : UIBoxLayout) (c : List UIWidget) :
    ({ s with children := c } : UIBoxLayout).vertical = s.vertical := rfl

@[simp] theorem set_children_align (s : UIBoxLayout) (c : List UIWidget) :
    ({ s with children := c } : UIBoxLayout).align = s.align := rfl

@[simp] theorem set_children_space_between (s : UIBoxLayout) (c : List UIWidget) :
    ({ s with children := c } : UIBoxLayout).space_between = s.space_between := rfl

@[simp] theorem set_children_size_hint_min (s : UIBoxLayout) (c : List UIWidget) :
    ({ s with children := c } : UIBoxLayout).size_hint_min = s.size_hint_min := rfl

@[simp] theorem box_set_children_children (s : UIBoxLayout) (c : List UIWidget) :
    ({ s with children := c } : UIBoxLayout).children = c := rfl

theorem v_child_state (s : UIBoxLayout) (c : List UIWidget) (ah t sy : ℚ) (w : UIWidget) :
    v_child { s with children := c } ah t sy w = v_child s ah t sy w := rfl

theorem h_child_state (s : UIBoxLayout) (c : List UIWidget) (aw t sx : ℚ) (w : UIWidget) :
    h_child { s with children := c } aw t sx w = h_child s aw t sx w := rfl

theorem v_go_state (s : UIBoxLayout) (c : List UIWidget) (ah t : ℚ) (sy : ℚ)
    (l : List UIWidget) :
    v_go { s with children := c } ah t sy l = v_go s ah t sy l := by
  induction l generalizing sy with
  | nil => rfl
  | cons w ws ih => simp only [v_go, v_child_state, set_children_space_between, ih]

theorem h_go_state (s : UIBoxLayout) (c : List UIWidget) (aw t : ℚ) (sx : ℚ)
    (l : List UIWidget) :
    h_go { s with children := c } aw t sx l = h_go s aw t sx l := by
  induction l generalizing sx with
  | nil => rfl
  | cons w ws ih => simp only [h_go, h_child_state, set_children_space_between, ih]

theorem v_go_idem (s : UIBoxLayout) (ah t : ℚ) (sy : ℚ) (l : List UIWidget) :
    v_go s ah t sy (v_go s ah t sy l) = v_go s ah t sy l := by
  induction l generalizing sy with
  | nil => rfl
  | cons w ws ih =>
    simp only [v_go, v_child_idem]
    rw [ih]

theorem h_go_idem (s : UIBoxLayout) (aw t : ℚ) (sx : ℚ) (l : List UIWidget) :
    h_go s aw t sx (h_go s aw t sx l) = h_go s aw t sx l := by
  induction l generalizing sx with
  | nil => rfl
  | cons w ws ih =>
    simp only [h_go, h_child_idem]
    rw [ih]

theorem v_go_length (s : UIBoxLayout) (ah t : ℚ) (sy : ℚ) (l : List UIWidget) :
    (v_go s ah t sy l).length = l.length := by
  induction l generalizing sy with
  | nil => rfl
  | cons w ws ih => simp only [v_go, List.length_cons, ih]

theorem h_go_length (s : UIBoxLayout) (aw t : ℚ) (sx : ℚ) (l : List UIWidget) :
    (h_go s aw t sx l).length = l.length := by
  induction l generalizing sx with
  | nil => rfl
  | cons w ws ih => simp only [h_go, List.length_cons, ih]

theorem v_go_size_hints (s : UIBoxLayout) (ah t : ℚ) (sy : ℚ) (l : List UIWidget) :
    (v_go s ah t sy l).map UIWidget.size_hint = l.map UIWidget.size_hint := by
  induction l generalizing sy with
  | nil => rfl
  | cons w ws ih =>
    simp only [v_go, List.map_cons, ih, List.cons.injEq, and_true]
    exact v_child_size_hint s ah t sy w

theorem h_go_size_hints (s : UIBoxLayout) (aw t : ℚ) (sx : ℚ) (l : List UIWidget) :
    (h_go s aw t sx l).map UIWidget.size_hint = l.map UIWidget.size_hint := by
  induction l generalizing sx with
  | nil => rfl
  | cons w ws ih =>
    simp only [h_go, List.map_cons, ih, List.cons.injEq, and_true]
    exact h_child_size_hint s aw t sx w

theorem weights_h (l : List UIWidget) :
    (l.filter (fun c => c.size_hint.isSome)).map (fun c => c.sh.2.getD 0) =
      ((l.map UIWidget.size_hint).filter (fun o => o.isSome)).map
        (fun o => (o.getD (none, none)).2.getD 0) := by
  rw [List.filter_map, List.map_map]
  rfl

theorem weights_w (l : List UIWidget) :
    (l.filter (fun c => c.size_hint.isSome)).map (fun c => c.sh.1.getD 0) =
      ((l.map UIWidget.size_hint).filter (fun o => o.isSome)).map
        (fun o => (o.getD (none, none)).1.getD 0) := by
  rw [List.filter_map, List.map_map]
  rfl

theorem total_size_hint_h_congr (l₁ l₂ : List UIWidget)
    (h : l₁.map UIWidget.size_hint = l₂.map UIWidget.size_hint) :
    total_size_hint_h l₁ = total_size_hint_h l₂ := by
  unfold total_size_hint_h
  rw [weights_h l₁, weights_h l₂, h]

theorem total_size_hint_w_congr (l₁ l₂ : List UIWidget)
    (h : l₁.map UIWidget.size_hint = l₂.map UIWidget.size_hint) :
    total_size_hint_w l₁ = total_size_hint_w l₂ := by
  unfold total_size_hint_w
  rw [weights_w l₁, weights_w l₂, h]

/-- `UIBoxLayout.do_layout` is idempotent. -/
theorem box_do_layout_idem (s : UIBoxLayout) :
    s.do_layout.do_layout = s.do_layout := by
  by_cases hc : s.children = []
  · have h1 : s.do_layout = s := by rw [do_layout, if_pos hc]
    rw [h1]
    exact h1
  · by_cases hv : s.vertical = true
    · have h1 : s.do_layout = { s with children :=
          (v_go s (max 0 (s.frame.height - s.size_hint_min.2))
            (total_size_hint_h s.children) s.frame.content_rect.top s.children) } := by
        rw [do_layout, if_neg hc, if_pos hv]
      rw [h1, do_layout]
      rw [if_neg (by
        simp only [box_set_children_children]
        intro hnil
        exact hc (List.length_eq_zero.mp (by rw [← v_go_length s _ _ _ s.children, hnil]; rfl)))]
      rw [if_pos (by simp only [set_children_vertical]; exact hv)]
      simp only [box_set_children_frame, set_children_size_hint_min, box_set_children_children]
      rw [v_go_state,
        total_size_hint_h_congr _ s.children (v_go_size_hints s _ _ _ s.children),
        v_go_idem]
    · have h1 : s.do_layout = { s with children :=
          (h_go s (max 0 (s.frame.width - s.size_hint_min.1))
            (total_size_hint_w s.children) s.frame.content_rect.left s.children) } := by
        rw [do_layout, if_neg hc, if_neg hv]
      rw [h1, do_layout]
      rw [if_neg (by
        simp only [box_set_children_children]
        intro hnil
        exact hc (List.length_eq_zero.mp (by rw [← h_go_length s _ _ _ s.children, hnil]; rfl)))]
      rw [if_neg (by simp only [set_children_vertical]; exact hv)]
      simp only [box_set_children_frame, set_children_size_hint_min, box_set_children_children]
      rw [h_go_state,
        total_size_hint_w_congr _ s.children (h_go_size_hints s _ _ _ s.children),
        h_go_idem]

theorem v_go_forall₂ (s : UIBoxLayout) (ah t : ℚ) (sy : ℚ) (l : List UIWidget) :
    List.Forall₂ (fun w w' : UIWidget =>
      (w.sh.1 = none → w'.rect.width = w.rect.width) ∧
      (w.sh.2 = none → w'.rect.height = w.rect.height)) l (v_go s ah t sy l) := by
  induction l generalizing sy with
  | nil => exact List.Forall₂.nil
  | cons w ws ih =>
    refine List.Forall₂.cons ⟨fun h => ?_, fun h => ?_⟩ (ih _)
    · rw [show (v_child s ah t sy w).rect.width = (v_child s ah t sy w).width from rfl,
        v_child_width, v_child_size_width_none s ah t w h]
    · rw [show (v_child s ah t sy w).rect.height = (v_child s ah t sy w).height from rfl,
        v_child_height, v_child_size_height_none s ah t w h]

theorem h_go_forall₂ (s : UIBoxLayout) (aw t : ℚ) (sx : ℚ) (l : List UIWidget) :
    List.Forall₂ (fun w w' : UIWidget =>
      (w.sh.1 = none → w'.rect.width = w.rect.width) ∧
      (w.sh.2 = none → w'.rect.height = w.rect.height)) l (h_go s aw t sx l) := by
  induction l generalizing sx with
  | nil => exact List.Forall₂.nil
  | cons w ws ih =>
    refine List.Forall₂.cons ⟨fun h => ?_, fun h => ?_⟩ (ih _)
    · rw [show (h_child s aw t sx w).rect.width = (h_child s aw t sx w).width from rfl,
        h_child_width, h_child_size_width_none s aw t w h]
    · rw [show (h_child s aw t sx w).rect.height = (h_child s aw t sx w).height from rfl,
        h_child_height, h_child_size_height_none s aw t w h]

/-- Recomputing the min size of a childless box yields exactly the
padding-plus-border base. -/
theorem box_update_size_hints_no_children (s : UIBoxLayout) :
    (update_size_hints { s with children := [] }).size_hint_min =
      (s.frame.base_width, s.frame.base_height) := by
  unfold update_size_hints
  simp

end UIBoxLayout

/-! ## List helper lemmas -/

theorem listMax_append_singleton (l : List ℚ) (x : ℚ) (h : l ≠ []) :
    listMax (l ++ [x]) = max (listMax l) x := by
  rcases l with _ | ⟨a, as⟩
  · exact absurd rfl h
  · simp only [listMax, List.cons_append, List.foldl_append, List.foldl_cons, List.foldl_nil]

theorem listMax_le_append (l : List ℚ) (x : ℚ) (h : l ≠ []) :
    listMax l ≤ listMax (l ++ [x]) := by
  rw [listMax_append_singleton l x h]
  exact le_max_left _ _

theorem foldl_max_zero_replicate (n : ℕ) : List.foldl max (0 : ℚ) (List.replicate n 0) = 0 := by
  induction n with
  | zero => rfl
  | succ k ih => simp only [List.replicate_succ, List.foldl_cons, max_self, ih]

theorem listMax_replicate_zero (n : ℕ) : listMax (List.replicate n (0 : ℚ)) = 0 := by
  cases n with
  | zero => rfl
  | succ k => simp only [List.replicate_succ, listMax, foldl_max_zero_replicate]

theorem sum_zero_of_nonneg (l : List ℚ) (hn : ∀ x ∈ l, 0 ≤ x) (hs : l.sum = 0) :
    ∀ x ∈ l, x = 0 := by
  induction l with
  | nil => intro x hx; cases hx
  | cons a as ih =>
    have ha : 0 ≤ a := hn a (List.mem_cons_self a as)
    have has : 0 ≤ as.sum := List.sum_nonneg (fun x hx => hn x (List.mem_cons_of_mem a hx))
    rw [List.sum_cons] at hs
    have ha0 : a = 0 := by linarith
    have has0 : as.sum = 0 := by linarith
    intro x hx
    rcases List.mem_cons.mp hx with rfl | hx'
    · exact ha0
    · exact ih (fun y hy => hn y (List.mem_cons_of_mem a hy)) has0 x hx'

/-! ## More AnchorLayout lemmas: the placed rect's size -/

namespace UIAnchorLayout

theorem place_child_width_le (f : LayoutFrame) (w : UIWidget) (d : AnchorData) :
    (place_child f w d).rect.width ≤ f.content_width := by
  rw [place_child_rect, Rect.move_width]
  exact place_size_width_le f w

theorem place_child_height_le (f : LayoutFrame) (w : UIWidget) (d : AnchorData) :
    (place_child f w d).rect.height ≤ f.content_height := by
  rw [place_child_rect, Rect.move_height]
  exact place_size_height_le f w

theorem place_child_width_none (f : LayoutFrame) (w : UIWidget) (d : AnchorData)
    (h : w.sh.1 = none) :
    (place_child f w d).rect.width = min w.rect.width f.content_width := by
  rw [place_child_rect, Rect.move_width, place_size_width_none f w h]

theorem place_child_height_none (f : LayoutFrame) (w : UIWidget) (d : AnchorData)
    (h : w.sh.2 = none) :
    (place_child f w d).rect.height = min w.rect.height f.content_height := by
  rw [place_child_rect, Rect.move_height, place_size_height_none f w h]

theorem place_child_width_some (f : LayoutFrame) (w : UIWidget) (d : AnchorData)
    (fw : ℚ) (h : w.sh.1 = some fw) :
    (place_child f w d).rect.width =
      min (truthyClampAbove w.shmx.1 (truthyClampBelow w.shmn.1 (f.content_width * fw)))
        f.content_width := by
  rw [place_child_rect, Rect.move_width, place_size_width_some f w fw h]

theorem place_child_height_some (f : LayoutFrame) (w : UIWidget) (d : AnchorData)
    (fh : ℚ) (h : w.sh.2 = some fh) :
    (place_child f w d).rect.height =
      min (truthyClampAbove w.shmx.2 (truthyClampBelow w.shmn.2 (f.content_height * fh)))
        f.content_height := by
  rw [place_child_rect, Rect.move_height, place_size_height_some f w fh h]

end UIAnchorLayout

/-! ## BoxLayout min-size monotonicity -/

namespace UIBoxLayout

set_option maxHeartbeats 1000000 in
theorem update_size_hints_add_mono (s : UIBoxLayout) (c : UIWidget)
    (hsp : 0 ≤ s.space_between)
    (hw : 0 ≤ (layout_min_size c).1) (hh : 0 ≤ (layout_min_size c).2) :
    (update_size_hints s).size_hint_min.1 ≤
      (update_size_hints { s with children := s.children ++ [c] }).size_hint_min.1 ∧
    (update_size_hints s).size_hint_min.2 ≤
      (update_size_hints { s with children := s.children ++ [c] }).size_hint_min.2 := by
  unfold update_size_hints
  simp only [box_set_children_children, box_set_children_frame, set_children_space_between,
    set_children_vertical, List.map_append, List.map_cons, List.map_nil,
    List.length_append, List.length_cons, List.length_nil]
  by_cases hE : s.children = []
  · simp only [hE, List.length_nil, List.map_nil, List.nil_append, List.map_cons,
      List.map_nil]
    by_cases hv : s.vertical = true <;>
      simp [hv, listMax, hw, hh, le_refl]
  · have hlen : s.children.length ≠ 0 := fun h0 => hE (List.length_eq_zero.mp h0)
    have hlen1 : s.children.length + 1 ≠ 0 := Nat.succ_ne_zero _
    have hmapne : (s.children.map layout_min_size).map Prod.fst ≠ [] := by
      simp [hE]
    have hmapne2 : (s.children.map layout_min_size).map Prod.snd ≠ [] := by
      simp [hE]
    have hcast : ((s.children.length - 1 : ℕ) : ℚ) ≤ (s.children.length : ℚ) := by
      exact_mod_cast Nat.sub_le _ 1
    have hspace : ((s.children.length - 1 : ℕ) : ℚ) * s.space_between ≤
        ((s.children.length : ℕ) : ℚ) * s.space_between :=
      mul_le_mul_of_nonneg_right hcast hsp
    by_cases hv : s.vertical = true
    · simp only [if_neg hlen, if_neg hlen1, if_pos hv, Nat.add_sub_cancel]
      constructor
      · have := listMax_le_append ((s.children.map layout_min_size).map Prod.fst)
          (layout_min_size c).1 hmapne
        linarith [this]
      · simp only [List.sum_append, List.sum_cons, List.sum_nil]
        linarith
    · simp only [if_neg hlen, if_neg hlen1, if_neg hv, Nat.add_sub_cancel]
      constructor
      · simp only [List.sum_append, List.sum_cons, List.sum_nil]
        linarith
      · have := listMax_le_append ((s.children.map layout_min_size).map Prod.snd)
          (layout_min_size c).2 hmapne2
        linarith [this]

end UIBoxLayout

/-! ## GridLayout lemmas -/

namespace UIGridLayout

@[simp] theorem grid_set_children_frame (s : UIGridLayout) (c : List (UIWidget × GridData)) :
    ({ s with children := c } : UIGridLayout).frame = s.frame := rfl

@[simp] theorem set_children_column_count (s : UIGridLayout) (c : List (UIWidget × GridData)) :
    ({ s with children := c } : UIGridLayout).column_count = s.column_count := rfl

@[simp] theorem set_children_row_count (s : UIGridLayout) (c : List (UIWidget × GridData)) :
    ({ s with children := c } : UIGridLayout).row_count = s.row_count := rfl

@[simp] theorem set_children_h_spacing (s : UIGridLayout) (c : List (UIWidget × GridData)) :
    ({ s with children := c } : UIGridLayout).horizontal_spacing = s.horizontal_spacing := rfl

@[simp] theorem set_children_v_spacing (s : UIGridLayout) (c : List (UIWidget × GridData)) :
    ({ s with children := c } : UIGridLayout).vertical_spacing = s.vertical_spacing := rfl

@[simp] theorem grid_set_children_children (s : UIGridLayout) (c : List (UIWidget × GridData)) :
    ({ s with children := c } : UIGridLayout).children = c := rfl

/-- Recomputing the min size of a childless grid yields base plus
`count * spacing` on each axis — not the bare base. -/
theorem grid_update_size_hints_no_children (s : UIGridLayout) :
    update_size_hints { s with children := [] } =
      some { s with
             children := [],
             size_hint_min :=
               (s.frame.base_width + (s.column_count : ℚ) * s.horizontal_spacing,
                s.frame.base_height + (s.row_count : ℚ) * s.vertical_spacing) } := by
  unfold update_size_hints buildTables
  simp [principalMin, spanOr1, List.map_replicate, listMax_replicate_zero,
    List.sum_replicate, smul_zero]

/-- A successful `add` never changes the configured row/column counts and
only appends the child: there is no auto-growth. -/
theorem add_no_auto_growth (s : UIGridLayout) (w : UIWidget) (d : GridData)
    (s' : UIGridLayout) (h : s.add w d = some s') :
    s'.column_count = s.column_count ∧ s'.row_count = s.row_count ∧
      s'.children = s.children ++ [(w, d)] := by
  unfold add update_size_hints at h
  rcases hb : buildTables s.column_count s.row_count layout_min_size
      (s.children ++ [(w, d)]) with _ | t
  · rw [set_children_column_count, set_children_row_count, grid_set_children_children] at h
    rw [hb] at h
    cases h
  · rw [set_children_column_count, set_children_row_count, grid_set_children_children] at h
    rw [hb] at h
    obtain rfl := Option.some.inj h
    exact ⟨rfl, rfl, rfl⟩

end UIGridLayout

@[simp] theorem UIAnchorLayout.anchor_set_children_children (s : UIAnchorLayout)
    (c : List (UIWidget × AnchorData)) :
    ({ s with children := c } : UIAnchorLayout).children = c := rfl

@[simp] theorem UIAnchorLayout.anchor_set_children_frame (s : UIAnchorLayout)
    (c : List (UIWidget × AnchorData)) :
    ({ s with children := c } : UIAnchorLayout).frame = s.frame := rfl


/-! ## Claim theorems -/

/-- Claim C1, amended: the hint-negotiation stage of each container applies
the lower clamp first and the upper clamp second, so on a conflict
(`min > max`) the max clamp wins; but Anchor treats zero bounds as unset
(truthiness) and afterwards caps the result at the content size, Box
applies both clamps whenever non-`None`, and Grid always lower-clamps by
`size_hint_min or 0`, treats a zero max as unset, and substitutes the
child's current size when `hint * available` is zero. -/
theorem C1_amended :
    (∀ (f : LayoutFrame) (w : UIWidget) (d : AnchorData) (fw : ℚ), w.sh.1 = some fw →
      (UIAnchorLayout.place_child f w d).rect.width =
        min (truthyClampAbove w.shmx.1 (truthyClampBelow w.shmn.1 (f.content_width * fw)))
          f.content_width) ∧
    (∀ (s : UIBoxLayout) (ah t sy : ℚ) (w : UIWidget) (fh : ℚ), w.sh.2 = some fh →
      (UIBoxLayout.v_child s ah t sy w).height =
        clampAbove w.shmx.2 (clampBelow w.shmn.2
          (min (w.shmn.2.getD 0 + ah * (fh / t)) (s.frame.height * fh)))) ∧
    (∀ (a b v : ℚ), b < a → clampAbove (some b) (clampBelow (some a) v) = b) ∧
    (∀ (w : UIWidget) (aw ah : ℚ),
      (UIGridLayout.cell_new_size w aw ah).2 =
        truthyClampAbove w.shmx.2 (max (w.shmn.2.getD 0)
          (orElseQ ((match w.size_hint with | some p => p.2.getD 0 | none => 0) * ah)
            w.rect.height))) := by
  refine ⟨?_, ?_, ?_, ?_⟩
  · intro f w d fw h
    exact UIAnchorLayout.place_child_width_some f w d fw h
  · intro s ah t sy w fh h
    rw [UIBoxLayout.v_child_height, UIBoxLayout.v_child_size_height_some s ah t w fh h]
  · intro a b v hab
    unfold clampAbove clampBelow
    exact min_eq_right (le_trans hab.le (le_max_right v a))
  · intro w aw ah
    unfold UIGridLayout.cell_new_size truthyClampAbove
    dsimp only
    split_ifs with hmx
    · rw [min_comm]
      rfl
    · rfl

/-- Claim C1 amended, witness: concrete instantiations of the anchor clamp
characterization and the min-greater-than-max conflict resolution. -/
theorem C1_amended_witness :
    ((wid 0 0 30 30 (some (some 1, some 1)) (some (some 200, none)) none).sh.1 = some 1 ∧
      (UIAnchorLayout.place_child (frm 100 100)
          (wid 0 0 30 30 (some (some 1, some 1)) (some (some 200, none)) none)
          ⟨none, 0, none, 0⟩).rect.width =
        min (truthyClampAbove
          (wid 0 0 30 30 (some (some 1, some 1)) (some (some 200, none)) none).shmx.1
          (truthyClampBelow
            (wid 0 0 30 30 (some (some 1, some 1)) (some (some 200, none)) none).shmn.1
            ((frm 100 100).content_width * 1))) (frm 100 100).content_width) ∧
    ((1 : ℚ) < 2 ∧ clampAbove (some 1) (clampBelow (some 2) 5) = 1) :=
  ⟨⟨rfl, C1_amended.1 (frm 100 100) _ ⟨none, 0, none, 0⟩ 1 rfl⟩,
   ⟨by norm_num, C1_amended.2.2.1 2 1 5 (by norm_num)⟩⟩

/-- Claim C4, amended: `UIAnchorLayout.do_layout` and
`UIBoxLayout.do_layout` are idempotent (a second call with no intervening
mutation reproduces exactly the same child rects); `UIGridLayout.do_layout`
is not. -/
theorem C4_amended :
    (∀ s : UIAnchorLayout, s.do_layout.do_layout = s.do_layout) ∧
    (∀ s : UIBoxLayout, s.do_layout.do_layout = s.do_layout) :=
  ⟨UIAnchorLayout.anchor_do_layout_idem, UIBoxLayout.box_do_layout_idem⟩

/-- Claim C5: after `UIAnchorLayout.do_layout`, a child with a size_hint
set never exceeds the parent's content width/height (the hard cap of
`_place_child`, line 135). -/
theorem C5_anchor_no_overflow (s : UIAnchorLayout) (p : UIWidget × AnchorData)
    (hmem : p ∈ s.do_layout.children) (hsh : p.1.size_hint.isSome = true) :
    p.1.rect.width ≤ s.frame.content_width ∧
      p.1.rect.height ≤ s.frame.content_height := by
  unfold UIAnchorLayout.do_layout at hmem
  rw [UIAnchorLayout.anchor_set_children_children] at hmem
  rw [List.mem_map] at hmem
  obtain ⟨q, hq, rfl⟩ := hmem
  exact ⟨UIAnchorLayout.place_child_width_le _ _ _,
    UIAnchorLayout.place_child_height_le _ _ _⟩

/-- Claim C7, amended: for `UIBoxLayout`, adding a child (with nonnegative
spacing and min contribution) never decreases either component of the
recomputed `size_hint_min`, and removing the only child returns it exactly
to `(base_width, base_height)`; for `UIGridLayout`, adding a spanning child
can decrease it, and the childless grid recomputes to base plus
`count * spacing`, not the bare base. -/
theorem C7_amended :
    (∀ (s : UIBoxLayout) (c : UIWidget), 0 ≤ s.space_between →
      0 ≤ (layout_min_size c).1 → 0 ≤ (layout_min_size c).2 →
      (UIBoxLayout.update_size_hints s).size_hint_min.1 ≤
        (UIBoxLayout.update_size_hints
          { s with children := s.children ++ [c] }).size_hint_min.1 ∧
      (UIBoxLayout.update_size_hints s).size_hint_min.2 ≤
        (UIBoxLayout.update_size_hints
          { s with children := s.children ++ [c] }).size_hint_min.2) ∧
    (∀ s : UIBoxLayout,
      (UIBoxLayout.update_size_hints { s with children := [] }).size_hint_min =
        (s.frame.base_width, s.frame.base_height)) ∧
    (∀ s : UIGridLayout, UIGridLayout.update_size_hints { s with children := [] } =
      some { s with
             children := [],
             size_hint_min :=
               (s.frame.base_width + (s.column_count : ℚ) * s.horizontal_spacing,
                s.frame.base_height + (s.row_count : ℚ) * s.vertical_spacing) }) :=
  ⟨UIBoxLayout.update_size_hints_add_mono, UIBoxLayout.box_update_size_hints_no_children,
   UIGridLayout.grid_update_size_hints_no_children⟩

/-- Claim C8: whenever the normalizing sum of weights is zero, the
`or 1` guards of `UIBoxLayout.do_layout` and of the `ratio` helper of
`UIGridLayout.do_layout` treat the sum as 1, no division by zero occurs,
and every child's proportional share is zero. -/
theorem C8_div_zero_guard :
    (∀ l : List UIWidget,
      ((l.filter (fun c => c.size_hint.isSome)).map (fun c => c.sh.2.getD 0)).sum = 0 →
      total_size_hint_h l = 1 ∧
      ((∀ c' ∈ l, 0 ≤ c'.sh.2.getD 0) → ∀ c ∈ l, ∀ ah : ℚ,
        ah * (c.sh.2.getD 0 / total_size_hint_h l) = 0)) ∧
    (∀ dims : List ℚ, dims.sum = 0 →
      gridRatio dims = dims ∧ ((∀ x ∈ dims, 0 ≤ x) → ∀ r ∈ gridRatio dims, r = 0)) := by
  constructor
  · intro l hsum
    have htot : total_size_hint_h l = 1 := by
      unfold total_size_hint_h
      rw [if_pos hsum]
    refine ⟨htot, fun hnn c hc ah => ?_⟩
    have hcz : c.sh.2.getD 0 = 0 := by
      by_cases hs : c.size_hint.isSome
      · have hmem : c.sh.2.getD 0 ∈
            (l.filter (fun c => c.size_hint.isSome)).map (fun c => c.sh.2.getD 0) :=
          List.mem_map_of_mem _ (List.mem_filter.mpr ⟨hc, hs⟩)
        exact sum_zero_of_nonneg _
          (fun x hx => by
            obtain ⟨c', hc', rfl⟩ := List.mem_map.mp hx
            exact hnn c' (List.mem_filter.mp hc').1) hsum _ hmem
      · rcases ho : c.size_hint with _ | p
        · simp [UIWidget.sh, ho]
        · exact absurd (by simp [ho]) hs
    rw [hcz, htot]
    simp
  · intro dims hsum
    have hid : gridRatio dims = dims := by
      unfold gridRatio
      rw [if_pos hsum]
      simp
    refine ⟨hid, fun hnn r hr => ?_⟩
    rw [hid] at hr
    exact sum_zero_of_nonneg dims hnn hsum r hr

section ConcreteEval

attribute [local simp] frm wid anchC1 boxC2 gridC3 gridC4 anchC5 pC5 anchC6 gridC6
  gridC7 widC7 gridC9 widPlain gridC9add gridC10 gridC10b boxW
  otruthy orElseQ orElseOQ spanOr1 fdiv listMax
  Rect.left Rect.right Rect.top Rect.bottom Rect.center_x Rect.center_y
  Rect.move Rect.resize Rect.min_size Rect.max_size
  Rect.align_left Rect.align_right Rect.align_top Rect.align_bottom
  Rect.align_center_x Rect.align_center_y
  UIWidget.sh UIWidget.shmn UIWidget.shmx UIWidget.width UIWidget.height
  LayoutFrame.content_width LayoutFrame.content_height LayoutFrame.content_rect
  LayoutFrame.base_width LayoutFrame.base_height
  anchorValX anchorValY
  UIAnchorLayout.place_size UIAnchorLayout.place_child UIAnchorLayout.do_layout
  layout_min_size total_size_hint_h total_size_hint_w
  UIBoxLayout.update_size_hints UIBoxLayout.v_child_size UIBoxLayout.v_align
  UIBoxLayout.v_child UIBoxLayout.v_go UIBoxLayout.h_child_size UIBoxLayout.h_align
  UIBoxLayout.h_child UIBoxLayout.h_go UIBoxLayout.do_layout
  setAt setAt2 getAt2 sliceAssign gridTablesStep buildTables principalMin equalize
  gridRatio clampBelow clampAbove truthyClampBelow truthyClampAbove
  UIGridLayout.update_size_hints UIGridLayout.min_width_tallies UIGridLayout.add
  UIGridLayout.cell_new_size UIGridLayout.cell_step UIGridLayout.row_step
  UIGridLayout.do_layout
  List.foldlM List.enum List.enumFrom List.range' List.replicate List.set
  List.take List.drop List.mapIdx

set_option maxHeartbeats 4000000 in
/-- Claim C1, counterexample: in `UIAnchorLayout._place_child` the child's
resulting width is NOT always the min-then-max clamped hint candidate: with
`size_hint=(1,1)`, `size_hint_min=(200,None)` and content width 100 the
clamped candidate is 200, but the final hard cap at the content size
(line 135) yields width 100. -/
theorem C1_counterexample :
    (UIAnchorLayout.do_layout anchC1).children.map (fun p => p.1.rect.width) = [100] ∧
    clampAbove none (clampBelow (some 200) (anchC1.frame.content_width * 1)) = 200 ∧
    (100 : ℚ) ≠ 200 := by
  refine ⟨?_, ?_, by norm_num⟩ <;>
    (try simp; try norm_num; try simp; try norm_num; try simp; try norm_num)

set_option maxHeartbeats 4000000 in
/-- Claim C2: a vertical `UIBoxLayout` of height 300 with zero spacing and
insets holding exactly two children with `size_hint=(None,1)` each resizes
both children to height exactly 150 (`300 * (1/2)` of the weight-normalized
surplus each). -/
theorem C2_box_proportional :
    (UIBoxLayout.do_layout boxC2).children.map UIWidget.height = [150, 150] := by
  try simp
  try norm_num
  try simp
  try norm_num
  try simp
  try norm_num

set_option maxHeartbeats 4000000 in
/-- Claim C3, counterexample: the spanning child of min width 100 over two
columns does NOT contribute 50 to each column's minimum-width tally. -/
theorem C3_counterexample :
    UIGridLayout.min_width_tallies gridC3 ≠ some [50, 50] := by
  try simp
  try norm_num
  try simp
  try norm_num

set_option maxHeartbeats 4000000 in
/-- Claim C3, amended: in `UIGridLayout._update_size_hints` a child with
`col_span=2` and minimum width 100 contributes 50 (its min divided by the
span) to the tally of its anchor column only; the other covered column's
entry is zeroed and tallies 0. -/
theorem C3_amended :
    UIGridLayout.min_width_tallies gridC3 = some [50, 0] := by
  try simp
  try norm_num
  try simp
  try norm_num

set_option maxHeartbeats 8000000 in
/-- Claim C4, counterexample: `UIGridLayout.do_layout` is not idempotent:
on `gridC4` the first call gives the hinted child width `175/3`, but a
second call with no intervening mutation gives it width `1075/12` (the
first pass changes child heights, which changes the height-ratio vector
used to distribute width slack in the second pass). -/
theorem C4_counterexample :
    (UIGridLayout.do_layout gridC4).map
        (fun g => g.children.map (fun p => p.1.rect.width)) = some [175/3, 50] ∧
    ((UIGridLayout.do_layout gridC4).bind UIGridLayout.do_layout).map
        (fun g => g.children.map (fun p => p.1.rect.width)) = some [1075/12, 50] ∧
    (175/3 : ℚ) ≠ 1075/12 := by
  refine ⟨?_, ?_, by norm_num⟩ <;>
    (try simp; try norm_num; try simp; try norm_num; try simp; try norm_num)

set_option maxHeartbeats 4000000 in
/-- Claim C5, witness: the hinted child of `anchC5` after layout fits the
content area. -/
theorem C5_anchor_no_overflow_witness :
    pC5 ∈ (UIAnchorLayout.do_layout anchC5).children ∧
    pC5.1.size_hint.isSome = true ∧
    (pC5.1.rect.width ≤ anchC5.frame.content_width ∧
      pC5.1.rect.height ≤ anchC5.frame.content_height) :=
  ⟨by (try simp; try norm_num; try simp; try norm_num),
   by (try simp; try norm_num),
   C5_anchor_no_overflow anchC5 pC5
     (by (try simp; try norm_num; try simp; try norm_num))
     (by (try simp; try norm_num))⟩

set_option maxHeartbeats 4000000 in
/-- Claim C6, counterexample: a `UIAnchorLayout` child with
`size_hint=None` and width 50 in a content area of width 30 is shrunk to
width 30 by the hard cap: the hint-`None` axis is NOT left untouched. -/
theorem C6_counterexample :
    anchC6.children.map (fun p => (p.1.size_hint, p.1.rect.width)) = [(none, 50)] ∧
    (UIAnchorLayout.do_layout anchC6).children.map (fun p => p.1.rect.width) = [30] ∧
    (50 : ℚ) ≠ 30 := by
  refine ⟨?_, ?_, by norm_num⟩ <;>
    (try simp; try norm_num; try simp; try norm_num)

set_option maxHeartbeats 4000000 in
/-- Claim C6, amended: `UIBoxLayout` never changes a child's size on an
axis whose hint is `None`; `UIAnchorLayout` changes it only by capping it
at the content size (`new = min(old, content)`); `UIGridLayout` can change
it — it clamps the axis up to `size_hint_min` even when the hint is `None`
(concretely: a hint-less 50-wide child with `size_hint_min=(80,None)` is
resized to width 80). -/
theorem C6_amended :
    (∀ s : UIBoxLayout, List.Forall₂ (fun w w' : UIWidget =>
        (w.sh.1 = none → w'.rect.width = w.rect.width) ∧
        (w.sh.2 = none → w'.rect.height = w.rect.height)) s.children s.do_layout.children) ∧
    (∀ s : UIAnchorLayout, List.Forall₂ (fun p q : UIWidget × AnchorData =>
        (p.1.sh.1 = none → q.1.rect.width = min p.1.rect.width s.frame.content_width) ∧
        (p.1.sh.2 = none → q.1.rect.height = min p.1.rect.height s.frame.content_height))
      s.children s.do_layout.children) ∧
    (gridC6.children.map (fun p => (p.1.size_hint, p.1.rect.width)) = [(none, 50)] ∧
      (UIGridLayout.do_layout gridC6).map
        (fun g => g.children.map (fun p => p.1.rect.width)) = some [80]) := by
  refine ⟨?_, ?_, ?_, ?_⟩
  · intro s
    rw [UIBoxLayout.do_layout]
    split_ifs with hc hv
    · rw [hc]
      exact List.Forall₂.nil
    · rw [UIBoxLayout.box_set_children_children]
      exact UIBoxLayout.v_go_forall₂ s _ _ _ s.children
    · rw [UIBoxLayout.box_set_children_children]
      exact UIBoxLayout.h_go_forall₂ s _ _ _ s.children
  · intro s
    rw [UIAnchorLayout.do_layout, UIAnchorLayout.anchor_set_children_children]
    generalize s.children = l
    induction l with
    | nil => exact List.Forall₂.nil
    | cons p ps ih =>
      refine List.Forall₂.cons ⟨fun h => ?_, fun h => ?_⟩ ih
      · exact UIAnchorLayout.place_child_width_none s.frame p.1 p.2 h
      · exact UIAnchorLayout.place_child_height_none s.frame p.1 p.2 h
  · try simp
  · try simp
    try norm_num
    try simp
    try norm_num

/-- Claim C6 amended, witness: the box frame-effect relation instantiated
at a concrete layout. -/
theorem C6_amended_witness :
    List.Forall₂ (fun w w' : UIWidget =>
      (w.sh.1 = none → w'.rect.width = w.rect.width) ∧
      (w.sh.2 = none → w'.rect.height = w.rect.height))
      boxW.children boxW.do_layout.children :=
  C6_amended.1 boxW

set_option maxHeartbeats 4000000 in
/-- Claim C7, counterexample: `UIGridLayout` min-size is not monotone under
`add`: `gridC7` recomputes `size_hint_min = (100, 10)`, but adding a child
spanning both columns zeroes the first child's column entry and the
recomputed min drops to `(5, 10)`. -/
theorem C7_counterexample :
    (UIGridLayout.update_size_hints gridC7).map UIGridLayout.size_hint_min =
      some (100, 10) ∧
    (UIGridLayout.add gridC7 widC7 ⟨0, 0, 2, 1⟩).map UIGridLayout.size_hint_min =
      some (5, 10) ∧
    (5 : ℚ) < 100 := by
  refine ⟨?_, ?_, by norm_num⟩ <;>
    (try simp; try norm_num; try simp; try norm_num)

set_option maxHeartbeats 4000000 in
/-- Claim C7 amended, witness: box monotonicity instantiated at a concrete
layout and child. -/
theorem C7_amended_witness :
    ((0 : ℚ) ≤ boxW.space_between ∧ 0 ≤ (layout_min_size widPlain).1 ∧
      0 ≤ (layout_min_size widPlain).2) ∧
    ((UIBoxLayout.update_size_hints boxW).size_hint_min.1 ≤
      (UIBoxLayout.update_size_hints
        { boxW with children := boxW.children ++ [widPlain] }).size_hint_min.1 ∧
    (UIBoxLayout.update_size_hints boxW).size_hint_min.2 ≤
      (UIBoxLayout.update_size_hints
        { boxW with children := boxW.children ++ [widPlain] }).size_hint_min.2) :=
  ⟨⟨by norm_num, by norm_num, by norm_num⟩,
   C7_amended.1 boxW widPlain (by norm_num) (by norm_num) (by norm_num)⟩

/-- Claim C8, witness: the guards instantiated at a hint-less child and a
zero dimension table. -/
theorem C8_div_zero_guard_witness :
    (([widPlain].filter (fun c => c.size_hint.isSome)).map
        (fun c => c.sh.2.getD 0)).sum = 0 ∧
    total_size_hint_h [widPlain] = 1 ∧
    ([(0 : ℚ), 0].sum = 0 ∧ gridRatio [0, 0] = [0, 0]) :=
  ⟨by simp, ((C8_div_zero_guard.1 [widPlain]) (by simp)).1,
   ⟨by norm_num, ((C8_div_zero_guard.2 [0, 0]) (by norm_num)).1⟩⟩

set_option maxHeartbeats 4000000 in
/-- Claim C9, counterexample: `UIGridLayout.add` with a `col_span`
extending past `column_count` neither auto-grows the count nor raises
`InvalidPlacement` (no such error exists in the code): the bound
`_update_size_hints` recompute fails with an out-of-range list index
(Python `IndexError`, modelled as `none`). -/
theorem C9_counterexample :
    UIGridLayout.add gridC9 widPlain ⟨0, 0, 2, 1⟩ = none := by
  try simp
  try norm_num
  try simp
  try norm_num

set_option maxHeartbeats 4000000 in
/-- Claim C9, amended: `add` performs no validation and never grows
`row_count`/`column_count`; a placement whose row or column index or span
leaves the configured grid makes the triggered min-size recompute fail
with an uncaught `IndexError` (modelled `none`), not `InvalidPlacement`,
while a successful `add` only appends the child and recomputes
`size_hint_min`. -/
theorem C9_amended :
    (UIGridLayout.add gridC9 widPlain ⟨0, 1, 1, 1⟩ = none) ∧
    (∀ (s : UIGridLayout) (w : UIWidget) (d : GridData) (s' : UIGridLayout),
      s.add w d = some s' → s'.column_count = s.column_count ∧
        s'.row_count = s.row_count ∧ s'.children = s.children ++ [(w, d)]) := by
  constructor
  · try simp
    try norm_num
    try simp
    try norm_num
  · exact UIGridLayout.add_no_auto_growth

set_option maxHeartbeats 4000000 in
theorem eval_gridC9_add_ok :
    UIGridLayout.add gridC9 widPlain ⟨0, 0, 1, 1⟩ = some gridC9add := by
  try simp
  try norm_num
  try simp
  try norm_num

/-- Claim C9 amended, witness: a successful `add` on the 1×1 grid appends
the child without changing the counts. -/
theorem C9_amended_witness :
    gridC9add.column_count = gridC9.column_count ∧
    gridC9add.row_count = gridC9.row_count ∧
    gridC9add.children = gridC9.children ++ [(widPlain, ⟨0, 0, 1, 1⟩)] :=
  C9_amended.2 gridC9 widPlain ⟨0, 0, 1, 1⟩ gridC9add eval_gridC9_add_ok

end ConcreteEval

end Arcade
